import Mathlib

/-!
Firmware-update test driver (`main.cpp`): shallow embedding.

The program drives the PSA Firmware Update service through four primitives
(`psa_fwu_write`, `psa_fwu_query`, `psa_fwu_install`, `psa_fwu_abort`) and a
reboot request.  The service is external: it is modelled as an arbitrary
deterministic machine over a state type `σ`, so a statement quantified over
`Service σ` and `σ` speaks about every behaviour of the service.

Every run returns the C return value, the service state it leaves behind and
the trace of what it did, in program order: each primitive call with its
arguments and what the service answered, and each `printf` with its format
string and arguments.

Conventions of the embedding
* `size_t`, pointer differences and `uint32_t` counters are `Nat`; the values
  the program computes with them are bounded by the image length or by the
  number of rounds, so no wrap-around can occur.
* `fwu_src_pos` is the index `fwu_src_pos - fwu_src_beg` into the image and
  `fwu_src_end` is the image length.
* The buffer passed to `psa_fwu_write` (a pointer and a length) is the list of
  the `fwu_todo` bytes starting at `fwu_src_pos`.
* `psa_image_status_arr[info.state]` is an unchecked C array read.  It is
  modelled by the checked read `psa_image_status_arr[info.state]?`: `none`
  stands for a read past the end of the table.
-/

namespace PsaFwu

/-! ## Declarations of `psa/update.h` used by the program -/

/-- Status code returned by the primitives (`psa_status_t`, a signed integer). -/
abbrev psa_status_t := Int

/-- Modelled from the spec: `psa/update.h` is not part of the sources; the
primitive's plain success status. -/
def PSA_SUCCESS : psa_status_t := 0

/-- Modelled from the spec: `psa/update.h` is not part of the sources; the
install status "accepted, reboot required", which the spec distinguishes from
plain success. -/
def PSA_SUCCESS_REBOOT : psa_status_t := 1

/-- Modelled from the spec: `psa/update.h` is not part of the sources; state
code of `Undefined`, the first of the six states, whose name is entry 0 of
`psa_image_status_arr`. -/
def PSA_IMAGE_UNDEFINED : Nat := 0

/-- Modelled from the spec: `psa/update.h` is not part of the sources; state
code of `Candidate`, whose name is entry 1 of `psa_image_status_arr`. -/
def PSA_IMAGE_CANDIDATE : Nat := 1

/-- Modelled from the spec: `psa/update.h` is not part of the sources; state
code of `Installed`, whose name is entry 2 of `psa_image_status_arr`. -/
def PSA_IMAGE_INSTALLED : Nat := 2

/-- Modelled from the spec: `psa/update.h` is not part of the sources; state
code of `RebootNeeded`, whose name is entry 5 of `psa_image_status_arr`. -/
def PSA_IMAGE_REBOOT_NEEDED : Nat := 5

/-- Slot role of an image identity. -/
inductive Slot
  | FWU_IMAGE_ID_SLOT_ACTIVE
  | FWU_IMAGE_ID_SLOT_STAGE
  deriving DecidableEq, Repr

/-- Image type of an image identity. -/
inductive ImageType
  | FWU_IMAGE_TYPE_NONSECURE
  | FWU_IMAGE_TYPE_SECURE
  | FWU_IMAGE_TYPE_FULL
  deriving DecidableEq, Repr

/-- Modelled from the spec: the macro `FWU_CALCULATE_IMAGE_ID` is not part of
the sources; an image identity is the combination of slot role, image type
and index, and the program treats it as a token. -/
structure psa_image_id_t where
  slot : Slot
  type : ImageType
  index : Nat
  deriving DecidableEq, Repr

/-- Modelled from the spec: the macro is not part of the sources; it combines
its three arguments into an identity. -/
def FWU_CALCULATE_IMAGE_ID (slot : Slot) (type : ImageType) (index : Nat) : psa_image_id_t :=
  ⟨slot, type, index⟩

/-- Image version as the program prints it. -/
structure psa_image_version_t where
  iv_major : Nat
  iv_minor : Nat
  iv_revision : Nat
  iv_build_num : Nat
  deriving DecidableEq, Repr

/-- What a query writes through its `info` pointer: the integer state code and
the version. -/
structure psa_image_info_t where
  state : Nat
  version : psa_image_version_t
  deriving DecidableEq, Repr

/-! ## Globals of `main.cpp` -/

/-- Source lines 16-19. -/
def image_id_ns_active : psa_image_id_t :=
  FWU_CALCULATE_IMAGE_ID .FWU_IMAGE_ID_SLOT_ACTIVE .FWU_IMAGE_TYPE_NONSECURE 0

/-- Source lines 20-23. -/
def image_id_ns_staging : psa_image_id_t :=
  FWU_CALCULATE_IMAGE_ID .FWU_IMAGE_ID_SLOT_STAGE .FWU_IMAGE_TYPE_NONSECURE 0

/-- Source lines 25-32: the table of state names. -/
def psa_image_status_arr : List String :=
  [ "PSA_IMAGE_UNDEFINED",
    "PSA_IMAGE_CANDIDATE",
    "PSA_IMAGE_INSTALLED",
    "PSA_IMAGE_REJECTED",
    "PSA_IMAGE_PENDING_INSTALL",
    "PSA_IMAGE_REBOOT_NEEDED" ]

/-- Source line 34. -/
def MAX_BLOCK_SIZE : Nat := 752

/-! ## The service and the trace of a run -/

/-- An argument of a `printf` call.  A `%s` argument read from the table of
state names is `none` when the read is past the end of the table. -/
inductive Arg
  | int (v : Int)
  | nat (v : Nat)
  | str (v : Option String)
  deriving DecidableEq, Repr

/-- One observable step of a run: a primitive call together with what the
service answered, a sleep, or a `printf`. -/
inductive Event
  | write (id : psa_image_id_t) (block_offset : Nat) (block : List Nat) (block_size : Nat)
      (status : psa_status_t)
  | query (id : psa_image_id_t) (status : psa_status_t) (info : psa_image_info_t)
  | install (id : psa_image_id_t) (status : psa_status_t)
  | abort (id : psa_image_id_t) (status : psa_status_t)
  | sleep_for (seconds : Nat)
  | request_reboot
  | printf (fmt : String) (args : List Arg)
  deriving DecidableEq, Repr

/-- The trusted service: each primitive maps its arguments and the service
state to an answer and a new state.  Nothing is assumed about it. -/
structure Service (σ : Type) where
  psa_fwu_write : psa_image_id_t → Nat → List Nat → Nat → σ → psa_status_t × σ
  psa_fwu_query : psa_image_id_t → σ → (psa_status_t × psa_image_info_t) × σ
  psa_fwu_install : psa_image_id_t → σ →
    (psa_status_t × psa_image_id_t × psa_image_version_t) × σ
  psa_fwu_abort : psa_image_id_t → σ → psa_status_t × σ
  psa_fwu_request_reboot : σ → σ

/-- Result of running a function of the program: its return value, the state
of the service afterwards and everything it did, in order. -/
structure Run (σ : Type) (α : Type) where
  ret : α
  state : σ
  trace : List Event

/-! ## The functions of `main.cpp` -/

/-- Source lines 113-139. -/
def show_image_info {σ : Type} (svc : Service σ) (s : σ) : Run σ Unit :=
  /- Query the NS active image -/
  let r1 := svc.psa_fwu_query image_id_ns_active s
  let status := r1.1.1
  let info := r1.1.2
  let s1 := r1.2
  let out1 :=
    if status ≠ PSA_SUCCESS then
      Event.printf "Query NS active image: %d\r\n" [.int status]
    else
      Event.printf "NS active image: state=%s, version=%d.%d.%d+%d\r\n"
        [.str psa_image_status_arr[info.state]?, .nat info.version.iv_major,
         .nat info.version.iv_minor, .nat info.version.iv_revision,
         .nat info.version.iv_build_num]
  /- Query the NS staging image -/
  let r2 := svc.psa_fwu_query image_id_ns_staging s1
  let status2 := r2.1.1
  let info2 := r2.1.2
  let s2 := r2.2
  let out2 :=
    if status2 ≠ PSA_SUCCESS then
      Event.printf "Query NS staging image: %d\r\n" [.int status2]
    else
      Event.printf "NS staging image: state=%s, version=%d.%d.%d+%d\r\n"
        [.str psa_image_status_arr[info2.state]?, .nat info2.version.iv_major,
         .nat info2.version.iv_minor, .nat info2.version.iv_revision,
         .nat info2.version.iv_build_num]
  ⟨(), s2,
    [.query image_id_ns_active status info, out1,
     .query image_id_ns_staging status2 info2, out2]⟩

/-- Source lines 152-172: the `while` loop of `write_update_firmware`, with the
block size as parameter `B` (`MAX_BLOCK_SIZE` in the program).  One unit of
fuel is spent per evaluation of the loop condition; `none` means the fuel ran
out.  The result is `(false, _)` when the loop left the function through
`return false`, and `(true, fwu_src_pos)` when the loop condition became
false. -/
def write_loop {σ : Type} (svc : Service σ) (B : Nat) (data : List Nat) :
    Nat → Nat → Nat → σ → Option (Run σ (Bool × Nat))
  | 0, _, _, _ => none
  | fuel + 1, fwu_src_pos, fwu_dst_pos, s =>
    if fwu_src_pos < data.length then
      let fwu_todo := data.length - fwu_src_pos
      let fwu_todo := if fwu_todo > B then B else fwu_todo
      let block := (data.drop fwu_src_pos).take fwu_todo
      let w := svc.psa_fwu_write image_id_ns_staging fwu_dst_pos block fwu_todo s
      let status := w.1
      let call := Event.write image_id_ns_staging fwu_dst_pos block fwu_todo status
      if status ≠ PSA_SUCCESS then
        some ⟨(false, fwu_src_pos), w.2,
          [call, .printf "psa_fwu_write() failed: %d\r\n" [.int status]]⟩
      else
        /- Print progress, then next block -/
        match write_loop svc B data fuel (fwu_src_pos + fwu_todo) (fwu_dst_pos + fwu_todo) w.2 with
        | none => none
        | some r =>
          some ⟨r.ret, r.state,
            call :: .printf "\r%d/%d (bytes) completed" [.nat fwu_src_pos, .nat data.length]
              :: r.trace⟩
    else
      some ⟨(true, fwu_src_pos), s, []⟩

/-- Source lines 141-190, with the block size `B` and the fuel of the loop as
parameters. -/
def write_update_firmware_with {σ : Type} (svc : Service σ) (B : Nat) (data : List Nat)
    (fuel : Nat) (s : σ) : Option (Run σ Bool) :=
  /- Write to NS staging area -/
  match write_loop svc B data fuel 0 0 s with
  | none => none
  | some r =>
    if r.ret.1 = false then
      some ⟨false, r.state, r.trace⟩
    else
      /- Print progress -/
      let progress :=
        Event.printf "\r%d/%d (bytes) completed\r\n" [.nat r.ret.2, .nat data.length]
      /- Check if the NS staging image's state is PSA_IMAGE_CANDIDATE -/
      let q := svc.psa_fwu_query image_id_ns_staging r.state
      let status := q.1.1
      let info := q.1.2
      let call := Event.query image_id_ns_staging status info
      if status ≠ PSA_SUCCESS then
        some ⟨false, q.2,
          r.trace ++ [progress, call, .printf "Query NS staging image: %d\r\n" [.int status]]⟩
      else if info.state ≠ PSA_IMAGE_CANDIDATE then
        some ⟨false, q.2,
          r.trace ++ [progress, call,
            .printf ("NS staging image's state should be PSA_IMAGE_CANDIDATE instead of %s"
                ++ "after successful write\r\n")
              [.str psa_image_status_arr[info.state]?]]⟩
      else
        some ⟨true, q.2, r.trace ++ [progress, call]⟩

/-- Source lines 141-190: `write_update_firmware` on the embedded image
`update_firmware_data`, here `data`.  The loop advances by at least one byte
per round, so `data.length + 1` evaluations of its condition are enough. -/
def write_update_firmware {σ : Type} (svc : Service σ) (data : List Nat) (s : σ) :
    Option (Run σ Bool) :=
  write_update_firmware_with svc MAX_BLOCK_SIZE data (data.length + 1) s

/-- Source lines 192-220. -/
def install_update_firmware {σ : Type} (svc : Service σ) (s : σ) : Run σ Bool :=
  let i := svc.psa_fwu_install image_id_ns_staging s
  let status := i.1.1
  let call := Event.install image_id_ns_staging status
  /- image verification is deferred to reboot, so PSA_SUCCESS_REBOOT is
     returned when success -/
  if status ≠ PSA_SUCCESS_REBOOT then
    ⟨false, i.2, [call, .printf "psa_fwu_install() failed: %d\r\n" [.int status]]⟩
  else
    /- Check if the NS staging image's state is PSA_IMAGE_REBOOT_NEEDED -/
    let q := svc.psa_fwu_query image_id_ns_staging i.2
    let status := q.1.1
    let info := q.1.2
    let qcall := Event.query image_id_ns_staging status info
    if status ≠ PSA_SUCCESS then
      ⟨false, q.2, [call, qcall, .printf "Query NS staging image: %d\r\n" [.int status]]⟩
    else if info.state ≠ PSA_IMAGE_REBOOT_NEEDED then
      ⟨false, q.2,
        [call, qcall,
          .printf ("NS staging image's state should be PSA_IMAGE_REBOOT_NEEDED instead of %s"
              ++ "after successful write\r\n")
            [.str psa_image_status_arr[info.state]?]]⟩
    else
      ⟨true, q.2, [call, qcall]⟩

/-- Source lines 222-246. -/
def abort_update_firmware {σ : Type} (svc : Service σ) (s : σ) : Run σ Bool :=
  /- Abort the update firmware -/
  let a := svc.psa_fwu_abort image_id_ns_staging s
  let status := a.1
  let call := Event.abort image_id_ns_staging status
  if status ≠ PSA_SUCCESS then
    ⟨false, a.2, [call, .printf "psa_fwu_abort() failed with %d\r\n" [.int status]]⟩
  else
    /- Check if the NS staging image's state is PSA_IMAGE_UNDEFINED -/
    let q := svc.psa_fwu_query image_id_ns_staging a.2
    let status := q.1.1
    let info := q.1.2
    let qcall := Event.query image_id_ns_staging status info
    if status ≠ PSA_SUCCESS then
      ⟨false, q.2, [call, qcall, .printf "Query NS staging image: %d\r\n" [.int status]]⟩
    else if info.state ≠ PSA_IMAGE_UNDEFINED then
      ⟨false, q.2,
        [call, qcall,
          .printf ("NS staging image's state should be PSA_IMAGE_UNDEFINED instead of %s"
              ++ "after successful write\r\n")
            [.str psa_image_status_arr[info.state]?]]⟩
    else
      ⟨true, q.2, [call, qcall]⟩

/-- Source lines 248-253. -/
def reboot {σ : Type} (svc : Service σ) (rel_time : Nat) (s : σ) : Run σ Unit :=
  ⟨(), svc.psa_fwu_request_reboot s, [.sleep_for rel_time, .request_reboot]⟩

/-- Source lines 96-107: the `for` loop of `stress_test`, from round `i` with
`todo = rounds - i` rounds left.  The result is `false` when the loop left the
function through `return`. -/
def stress_loop {σ : Type} (svc : Service σ) (data : List Nat) (rounds : Nat) :
    Nat → Nat → σ → Option (Run σ Bool)
  | 0, _, s => some ⟨true, s, []⟩
  | todo + 1, i, s =>
    let head := Event.printf "Round (%d/%d)...\r\n" [.nat (i + 1), .nat rounds]
    match write_update_firmware svc data s with
    | none => none
    | some w =>
      if w.ret = false then
        some ⟨false, w.state,
          head :: w.trace ++ [.printf "write_update_firmware() failed\r\n" []]⟩
      else
        let a := abort_update_firmware svc w.state
        if a.ret = false then
          some ⟨false, a.state,
            head :: w.trace ++ a.trace ++ [.printf "abort_update_firmware() failed\r\n" []]⟩
        else
          match stress_loop svc data rounds todo (i + 1) a.state with
          | none => none
          | some r =>
            some ⟨r.ret, r.state,
              head :: w.trace ++ a.trace
                ++ .printf "Round (%d/%d)...OK\r\n" [.nat (i + 1), .nat rounds] :: r.trace⟩

/-- Source lines 92-111. -/
def stress_test {σ : Type} (svc : Service σ) (data : List Nat) (rounds : Nat) (s : σ) :
    Option (Run σ Unit) :=
  match stress_loop svc data rounds rounds 0 s with
  | none => none
  | some r =>
    if r.ret = false then
      some ⟨(), r.state, r.trace⟩
    else
      let b := reboot svc 3 r.state
      some ⟨(), b.state,
        r.trace ++ .printf "\r\nSystem is going to reboot after 3s...\n\n" [] :: b.trace⟩

/-! ## Reading a trace -/

/-- The primitive calls of a trace, in order (everything but `printf`). -/
def calls (tr : List Event) : List Event :=
  tr.filter fun e =>
    match e with
    | .printf _ _ => false
    | _ => true

/-- One `psa_fwu_write` call as the service saw it. -/
structure WriteCall where
  id : psa_image_id_t
  block_offset : Nat
  block : List Nat
  block_size : Nat
  status : psa_status_t
  deriving DecidableEq, Repr

/-- The `psa_fwu_write` calls of a trace, in order. -/
def writes (tr : List Event) : List WriteCall :=
  tr.filterMap fun e =>
    match e with
    | .write id off blk n st => some ⟨id, off, blk, n, st⟩
    | _ => none

/-- The `psa_fwu_query` calls of a trace, in order. -/
def queries (tr : List Event) : List Event :=
  tr.filter fun e =>
    match e with
    | .query _ _ _ => true
    | _ => false

/-- The `psa_fwu_install` calls of a trace, in order. -/
def installs (tr : List Event) : List Event :=
  tr.filter fun e =>
    match e with
    | .install _ _ => true
    | _ => false

/-- The `psa_fwu_abort` calls of a trace, in order. -/
def aborts (tr : List Event) : List Event :=
  tr.filter fun e =>
    match e with
    | .abort _ _ => true
    | _ => false

/-- The `printf` calls of a trace, in order. -/
def prints (tr : List Event) : List Event :=
  tr.filter fun e =>
    match e with
    | .printf _ _ => true
    | _ => false

/-- The format string of the diagnostic a trace ends with, when its last event
is a `printf`. -/
def diagnostic (tr : List Event) : Option String :=
  match tr.getLast? with
  | some (.printf fmt _) => some fmt
  | _ => none

/-- The image identity a primitive call addresses; `none` for the events that
address no identity (sleep, reboot request, `printf`). -/
def target_id : Event → Option psa_image_id_t
  | .write id _ _ _ _ => some id
  | .query id _ _ => some id
  | .install id _ => some id
  | .abort id _ => some id
  | _ => none

/-- The progress reports of a trace, in order: the pair (bytes done, bytes
total) of every `printf` of the progress line, with or without the final line
break. -/
def progress_reports (tr : List Event) : List (Nat × Nat) :=
  tr.filterMap fun e =>
    match e with
    | .printf fmt [.nat done, .nat total] =>
      if fmt = "\r%d/%d (bytes) completed" ∨ fmt = "\r%d/%d (bytes) completed\r\n" then
        some (done, total)
      else none
    | _ => none

/-! ## The stress test as the specification words it

These definitions follow the words of the specification, not the source:
`rounds` times a write followed by an abort, run in order up to the first
operation that reports failure, and a reboot exactly when none did.  They are
compared with `stress_test` below. -/

/-- The operations of `rounds` rounds, in order: write, abort, write, abort,
and so on. -/
def spec_stress_ops {σ : Type} (svc : Service σ) (data : List Nat) :
    Nat → List (σ → Option (Run σ Bool))
  | 0 => []
  | rounds + 1 =>
    write_update_firmware svc data :: (fun s => some (abort_update_firmware svc s))
      :: spec_stress_ops svc data rounds

/-- Runs the operations in order and stops at the first one that reports
failure, running none of the later ones.  The result is `true` when every
operation reported success. -/
def spec_run_until_failure {σ : Type} :
    List (σ → Option (Run σ Bool)) → σ → Option (Run σ Bool)
  | [], s => some ⟨true, s, []⟩
  | op :: ops, s =>
    match op s with
    | none => none
    | some r =>
      if r.ret = false then some ⟨false, r.state, r.trace⟩
      else
        match spec_run_until_failure ops r.state with
        | none => none
        | some r2 => some ⟨r2.ret, r2.state, r.trace ++ r2.trace⟩

/-! ## Concrete services used to run the program -/

/-- Version 1.2.3+4. -/
def version0 : psa_image_version_t := ⟨1, 2, 3, 4⟩

/-- A service without state of its own: a write succeeds while the destination
offset is below `failFrom`, a query answers `(qstatus, qstate)`, install
answers `istatus` and abort answers `astatus`. -/
def scriptedService (failFrom : Nat) (qstatus : psa_status_t) (qstate : Nat)
    (istatus astatus : psa_status_t) : Service Unit where
  psa_fwu_write := fun _ off _ _ s => (if off < failFrom then PSA_SUCCESS else -1, s)
  psa_fwu_query := fun _ s => ((qstatus, ⟨qstate, version0⟩), s)
  psa_fwu_install := fun id s => ((istatus, id, version0), s)
  psa_fwu_abort := fun _ s => (astatus, s)
  psa_fwu_request_reboot := fun s => s

/-- A service whose query answers depend on the identity asked for: the active
identity gets `(astatus, astate)`, any other `(sstatus, sstate)`. -/
def queryService (astatus : psa_status_t) (astate : Nat) (sstatus : psa_status_t)
    (sstate : Nat) : Service Unit where
  psa_fwu_write := fun _ _ _ _ s => (PSA_SUCCESS, s)
  psa_fwu_query := fun id s =>
    (if id = image_id_ns_active then (astatus, ⟨astate, version0⟩)
      else (sstatus, ⟨sstate, version0⟩), s)
  psa_fwu_install := fun id s => ((PSA_SUCCESS_REBOOT, id, version0), s)
  psa_fwu_abort := fun _ s => (PSA_SUCCESS, s)
  psa_fwu_request_reboot := fun s => s

/-- A service that keeps the state code of the staging slot: a write makes it
`Candidate`, an install `RebootNeeded`, an abort `Undefined`; every call
succeeds and a query answers the current code. -/
def slotService : Service Nat where
  psa_fwu_write := fun _ _ _ _ _ => (PSA_SUCCESS, PSA_IMAGE_CANDIDATE)
  psa_fwu_query := fun _ s => ((PSA_SUCCESS, ⟨s, version0⟩), s)
  psa_fwu_install := fun id _ => ((PSA_SUCCESS_REBOOT, id, version0), PSA_IMAGE_REBOOT_NEEDED)
  psa_fwu_abort := fun _ _ => (PSA_SUCCESS, PSA_IMAGE_UNDEFINED)
  psa_fwu_request_reboot := fun s => s

/-- An image of `n` bytes, byte `i` being `i % 256`. -/
def sampleImage (n : Nat) : List Nat :=
  (List.range n).map fun i => i % 256

/-! ## Install and abort: one primitive call, then one verifying query -/

/-- C4: `install_update_firmware` returns `true` exactly when the install call
answers `PSA_SUCCESS_REBOOT` and the query of the staging identity that
follows answers `PSA_SUCCESS` with state `PSA_IMAGE_REBOOT_NEEDED`; an install
call answering plain `PSA_SUCCESS` makes it return `false`. -/
theorem install_update_firmware_success_iff {σ : Type} (svc : Service σ) (s : σ) :
    ((install_update_firmware svc s).ret = true ↔
      (svc.psa_fwu_install image_id_ns_staging s).1.1 = PSA_SUCCESS_REBOOT ∧
      (svc.psa_fwu_query image_id_ns_staging
        (svc.psa_fwu_install image_id_ns_staging s).2).1.1 = PSA_SUCCESS ∧
      (svc.psa_fwu_query image_id_ns_staging
        (svc.psa_fwu_install image_id_ns_staging s).2).1.2.state = PSA_IMAGE_REBOOT_NEEDED) ∧
    ((svc.psa_fwu_install image_id_ns_staging s).1.1 = PSA_SUCCESS →
      (install_update_firmware svc s).ret = false) := by
  constructor
  · unfold install_update_firmware
    by_cases h1 : (svc.psa_fwu_install image_id_ns_staging s).1.1 = PSA_SUCCESS_REBOOT
    · by_cases h2 : (svc.psa_fwu_query image_id_ns_staging
          (svc.psa_fwu_install image_id_ns_staging s).2).1.1 = PSA_SUCCESS
      · by_cases h3 : (svc.psa_fwu_query image_id_ns_staging
            (svc.psa_fwu_install image_id_ns_staging s).2).1.2.state = PSA_IMAGE_REBOOT_NEEDED
        · simp [h1, h2, h3]
        · simp [h1, h2, h3]
      · simp [h1, h2]
    · simp [h1]
  · intro h
    have hne : (svc.psa_fwu_install image_id_ns_staging s).1.1 ≠ PSA_SUCCESS_REBOOT := by
      rw [h]; decide
    unfold install_update_firmware
    simp [hne]

/-- Scenario C, run: the install call answers plain success and the function
returns `false`. -/
theorem install_update_firmware_success_iff_witness :
    (install_update_firmware (scriptedService 0 0 5 0 0) ()).ret = false :=
  (install_update_firmware_success_iff (scriptedService 0 0 5 0 0) ()).2 rfl

/-- C5: when the abort call answers `PSA_SUCCESS`, `abort_update_firmware`
returns `true` exactly when the query of the staging identity that follows
answers `PSA_SUCCESS` with state `PSA_IMAGE_UNDEFINED`, and `false` otherwise. -/
theorem abort_update_firmware_success_iff {σ : Type} (svc : Service σ) (s : σ)
    (h : (svc.psa_fwu_abort image_id_ns_staging s).1 = PSA_SUCCESS) :
    ((abort_update_firmware svc s).ret = true ↔
      (svc.psa_fwu_query image_id_ns_staging
        (svc.psa_fwu_abort image_id_ns_staging s).2).1.1 = PSA_SUCCESS ∧
      (svc.psa_fwu_query image_id_ns_staging
        (svc.psa_fwu_abort image_id_ns_staging s).2).1.2.state = PSA_IMAGE_UNDEFINED) ∧
    ((abort_update_firmware svc s).ret = false ↔
      ¬ ((svc.psa_fwu_query image_id_ns_staging
        (svc.psa_fwu_abort image_id_ns_staging s).2).1.1 = PSA_SUCCESS ∧
      (svc.psa_fwu_query image_id_ns_staging
        (svc.psa_fwu_abort image_id_ns_staging s).2).1.2.state = PSA_IMAGE_UNDEFINED)) := by
  unfold abort_update_firmware
  by_cases h2 : (svc.psa_fwu_query image_id_ns_staging
      (svc.psa_fwu_abort image_id_ns_staging s).2).1.1 = PSA_SUCCESS
  · by_cases h3 : (svc.psa_fwu_query image_id_ns_staging
        (svc.psa_fwu_abort image_id_ns_staging s).2).1.2.state = PSA_IMAGE_UNDEFINED
    · simp [h, h2, h3]
    · simp [h, h2, h3]
  · simp [h, h2]

/-- A run of C5: abort succeeds, the query answers state 2 (`Installed`), and
the function returns `false`. -/
theorem abort_update_firmware_success_iff_witness :
    (abort_update_firmware (scriptedService 0 0 2 0 0) ()).ret = false :=
  ((abort_update_firmware_success_iff (scriptedService 0 0 2 0 0) () rfl).2).2 (by decide)

/-- C7: when the abort call answers a status other than `PSA_SUCCESS`,
`abort_update_firmware` returns `false`, and all it does is that one abort
call on the staging identity followed by the diagnostic naming
`psa_fwu_abort()` and the status: it issues no query. -/
theorem abort_update_firmware_primitive_failure {σ : Type} (svc : Service σ) (s : σ)
    (h : (svc.psa_fwu_abort image_id_ns_staging s).1 ≠ PSA_SUCCESS) :
    (abort_update_firmware svc s).ret = false ∧
    (abort_update_firmware svc s).trace =
      [.abort image_id_ns_staging (svc.psa_fwu_abort image_id_ns_staging s).1,
       .printf "psa_fwu_abort() failed with %d\r\n"
         [.int (svc.psa_fwu_abort image_id_ns_staging s).1]] ∧
    queries (abort_update_firmware svc s).trace = [] ∧
    (calls (abort_update_firmware svc s).trace).length = 1 := by
  unfold abort_update_firmware
  simp [h, queries, calls]

/-- Scenario D, run: the abort call answers `-1`. -/
theorem abort_update_firmware_primitive_failure_witness :
    (abort_update_firmware (scriptedService 0 0 0 0 (-1)) ()).ret = false ∧
    queries (abort_update_firmware (scriptedService 0 0 0 0 (-1)) ()).trace = [] :=
  have h := abort_update_firmware_primitive_failure (scriptedService 0 0 0 0 (-1)) ()
    (by decide)
  ⟨h.1, h.2.2.1⟩

/-! ## The transfer loop, one round at a time -/

/-- Unfolding of one evaluation of the loop condition: either the loop is
over, or a block of `min B (length - pos)` bytes is written and the loop stops
on a failed write or goes on behind the block. -/
theorem write_loop_inv {σ : Type} (svc : Service σ) (B : Nat) (data : List Nat)
    (fuel pos dst : Nat) (s : σ) (r : Run σ (Bool × Nat))
    (h : write_loop svc B data (fuel + 1) pos dst s = some r) :
    (¬ pos < data.length ∧ r = ⟨(true, pos), s, []⟩) ∨
    (pos < data.length ∧ ∃ todo blk st s1,
      todo = min B (data.length - pos) ∧ blk = (data.drop pos).take todo ∧
      svc.psa_fwu_write image_id_ns_staging dst blk todo s = (st, s1) ∧
      ((st ≠ PSA_SUCCESS ∧
          r = ⟨(false, pos), s1,
            [.write image_id_ns_staging dst blk todo st,
             .printf "psa_fwu_write() failed: %d\r\n" [.int st]]⟩) ∨
       (st = PSA_SUCCESS ∧ ∃ r1,
          write_loop svc B data fuel (pos + todo) (dst + todo) s1 = some r1 ∧
          r = ⟨r1.ret, r1.state,
            .write image_id_ns_staging dst blk todo st ::
              .printf "\r%d/%d (bytes) completed" [.nat pos, .nat data.length] ::
                r1.trace⟩))) := by
  rw [write_loop] at h
  by_cases hp : pos < data.length
  · right
    refine ⟨hp, min B (data.length - pos), (data.drop pos).take (min B (data.length - pos)),
      (svc.psa_fwu_write image_id_ns_staging dst
        ((data.drop pos).take (min B (data.length - pos))) (min B (data.length - pos)) s).1,
      (svc.psa_fwu_write image_id_ns_staging dst
        ((data.drop pos).take (min B (data.length - pos))) (min B (data.length - pos)) s).2,
      rfl, rfl, rfl, ?_⟩
    have htodo : (if data.length - pos > B then B else data.length - pos)
        = min B (data.length - pos) := by
      split <;> omega
    simp only [hp, if_true, htodo] at h
    by_cases hst : (svc.psa_fwu_write image_id_ns_staging dst
        ((data.drop pos).take (min B (data.length - pos))) (min B (data.length - pos)) s).1
          = PSA_SUCCESS
    · right
      refine ⟨hst, ?_⟩
      simp only [hst, ne_eq, not_true_eq_false, if_false] at h
      cases hrec : write_loop svc B data fuel (pos + min B (data.length - pos))
          (dst + min B (data.length - pos))
          (svc.psa_fwu_write image_id_ns_staging dst
            ((data.drop pos).take (min B (data.length - pos)))
            (min B (data.length - pos)) s).2 with
      | none => rw [hrec] at h; simp at h
      | some r1 =>
        rw [hrec] at h
        refine ⟨r1, rfl, ?_⟩
        simp only [Option.some.injEq] at h
        rw [← h, hst]
    · left
      refine ⟨hst, ?_⟩
      simp only [ne_eq, hst, not_false_eq_true, if_true, Option.some.injEq] at h
      rw [← h]
  · left
    simp only [hp, if_false, Option.some.injEq] at h
    exact ⟨hp, h.symm⟩

/-- With a block size of at least one byte the loop ends: more fuel than there
are bytes left is enough. -/
theorem write_loop_total {σ : Type} (svc : Service σ) (B : Nat) (hB : 1 ≤ B) (data : List Nat) :
    ∀ (fuel pos dst : Nat) (s : σ), data.length - pos < fuel →
      ∃ r, write_loop svc B data fuel pos dst s = some r := by
  intro fuel
  induction fuel with
  | zero => intro pos dst s h; omega
  | succ fuel ih =>
    intro pos dst s h
    rw [write_loop]
    by_cases hp : pos < data.length
    · have htodo : (if data.length - pos > B then B else data.length - pos)
          = min B (data.length - pos) := by
        split <;> omega
      simp only [hp, if_true, htodo]
      split
      · exact ⟨_, rfl⟩
      · obtain ⟨r1, hr1⟩ := ih (pos + min B (data.length - pos))
          (dst + min B (data.length - pos))
          (svc.psa_fwu_write image_id_ns_staging dst
            ((data.drop pos).take (min B (data.length - pos)))
            (min B (data.length - pos)) s).2 (by omega)
        rw [hr1]
        exact ⟨_, rfl⟩
    · simp [hp]
/-- What the loop does besides writing: nothing.  It issues no query, abort or
install, every write it issued before the last one succeeded, and it leaves
through `return false` exactly when its last write failed, in which case that
write and its diagnostic end the trace. -/
theorem write_loop_shape {σ : Type} (svc : Service σ) (B : Nat) (data : List Nat) :
    ∀ (fuel pos dst : Nat) (s : σ) (r : Run σ (Bool × Nat)),
      write_loop svc B data fuel pos dst s = some r →
      queries r.trace = [] ∧ aborts r.trace = [] ∧ installs r.trace = [] ∧
      (calls r.trace).length = (writes r.trace).length ∧
      (r.ret.1 = true → ∀ w ∈ writes r.trace, w.status = PSA_SUCCESS) ∧
      (r.ret.1 = false → ∃ ws w, writes r.trace = ws ++ [w] ∧
        (∀ v ∈ ws, v.status = PSA_SUCCESS) ∧ w.status ≠ PSA_SUCCESS ∧
        ∃ pre, r.trace = pre ++
          [.write w.id w.block_offset w.block w.block_size w.status,
           .printf "psa_fwu_write() failed: %d\r\n" [.int w.status]]) := by
  intro fuel
  induction fuel with
  | zero => intro pos dst s r h; simp [write_loop] at h
  | succ fuel ih =>
    intro pos dst s r h
    rcases write_loop_inv svc B data fuel pos dst s r h with
      ⟨_, rfl⟩ | ⟨_, todo, blk, st, s1, _, _, _, ⟨hst, rfl⟩ | ⟨hst, r1, hr1, rfl⟩⟩
    · simp [queries, aborts, installs, calls, writes]
    · refine ⟨by simp [queries], by simp [aborts], by simp [installs],
        by simp [calls, writes], by simp, fun _ => ?_⟩
      refine ⟨[], ⟨image_id_ns_staging, dst, blk, todo, st⟩, by simp [writes], by simp, hst,
        [], by simp⟩
    · obtain ⟨hq, ha, hi, hc, hok, hfail⟩ := ih _ _ _ _ hr1
      refine ⟨by simpa [queries] using hq, by simpa [aborts] using ha,
        by simpa [installs] using hi, ?_, ?_, ?_⟩
      · simp only [calls, writes] at hc ⊢
        simp [hc]
      · intro ht w hw
        simp only [writes, List.filterMap_cons, List.mem_cons] at hw
        rcases hw with rfl | hw
        · exact hst
        · exact hok ht w hw
      · intro hf
        obtain ⟨ws, w, hws, hall, hw, pre, hpre⟩ := hfail hf
        refine ⟨⟨image_id_ns_staging, dst, blk, todo, st⟩ :: ws, w, ?_, ?_, hw,
          .write image_id_ns_staging dst blk todo st ::
            .printf "\r%d/%d (bytes) completed" [.nat pos, .nat data.length] :: pre, ?_⟩
        · simp only [writes, List.filterMap_cons] at hws ⊢
          simp [hws]
        · intro v hv
          rcases List.mem_cons.mp hv with rfl | hv
          · exact hst
          · exact hall v hv
        · simp [hpre]

/-- A loop that ran to its end from position `pos` (destination offset equal
to the source position) wrote the blocks `pos + i * B`, each of
`min B (length - (pos + i * B))` bytes, one after the other; the blocks put
together are the image from `pos` on, and the source position ends at the
image length. -/
theorem write_loop_ok {σ : Type} (svc : Service σ) (B : Nat) (hB : 1 ≤ B) (data : List Nat) :
    ∀ (fuel pos : Nat) (s : σ) (r : Run σ (Bool × Nat)),
      write_loop svc B data fuel pos pos s = some r → r.ret.1 = true → pos ≤ data.length →
      r.ret.2 = data.length ∧
      writes r.trace = (List.range ((data.length - pos + B - 1) / B)).map (fun i =>
        (⟨image_id_ns_staging, pos + i * B,
          (data.drop (pos + i * B)).take (min B (data.length - (pos + i * B))),
          min B (data.length - (pos + i * B)), PSA_SUCCESS⟩ : WriteCall)) ∧
      ((writes r.trace).map (fun w => w.block)).flatten = data.drop pos := by
  intro fuel
  induction fuel with
  | zero => intro pos s r h; simp [write_loop] at h
  | succ fuel ih =>
    intro pos s r h hret hpos
    rcases write_loop_inv svc B data fuel pos pos s r h with
      ⟨hp, rfl⟩ | ⟨hp, todo, blk, st, s1, htodo, hblk, _, ⟨_, rfl⟩ | ⟨hst, r1, hr1, rfl⟩⟩
    · have hL : data.length - pos + B - 1 < B := by omega
      have hn : (data.length - pos + B - 1) / B = 0 := Nat.div_eq_of_lt hL
      have hd : data.length ≤ pos := by omega
      simp [hn, writes, List.drop_eq_nil_of_le hd]
      omega
    · simp at hret
    · have hle : pos + todo ≤ data.length := by omega
      obtain ⟨h2, hw, hj⟩ := ih (pos + todo) s1 r1 hr1 hret hle
      refine ⟨h2, ?_, ?_⟩
      · have hcount : (data.length - pos + B - 1) / B
            = (data.length - (pos + todo) + B - 1) / B + 1 := by
          by_cases hc : B ≤ data.length - pos
          · have ht : todo = B := by omega
            rw [ht, ← Nat.add_div_right _ (by omega : 0 < B)]
            congr 1
            omega
          · have ht : todo = data.length - pos := by omega
            have h0 : (data.length - (pos + todo) + B - 1) / B = 0 :=
              Nat.div_eq_of_lt (by omega)
            rw [h0]
            have h1 : data.length - pos + B - 1 = (data.length - pos - 1) + B := by omega
            rw [h1, Nat.add_div_right _ (by omega : 0 < B), Nat.div_eq_of_lt (by omega)]
        simp only [writes, List.filterMap_cons] at hw ⊢
        rw [hw, hcount, List.range_succ_eq_map, List.map_cons, List.map_map]
        congr 1
        · simp only [Nat.zero_mul, Nat.add_zero]
          rw [hst, hblk, htodo]
        · apply List.map_congr_left
          intro i hi
          have hi2 : i < (data.length - (pos + todo) + B - 1) / B := List.mem_range.mp hi
          have htB : todo = B := by
            by_contra hne
            have h0 : (data.length - (pos + todo) + B - 1) / B = 0 :=
              Nat.div_eq_of_lt (by omega)
            omega
          have hidx : pos + todo + i * B = pos + (i + 1) * B := by
            rw [htB]; ring
          simp only [Function.comp, hidx, Nat.succ_eq_add_one]
      · simp only [writes, List.filterMap_cons, List.map_cons, List.flatten_cons] at hj ⊢
        rw [hj, hblk, ← List.drop_drop, List.take_append_drop]
/-! ## `write_update_firmware`: the loop, then one verifying query -/

/-- Unfolding of `write_update_firmware`: it returns `false` as soon as the
loop did; after a complete loop it prints the progress, queries the staging
identity once and returns `true` exactly when the query answers `PSA_SUCCESS`
with state `PSA_IMAGE_CANDIDATE`. -/
theorem write_update_firmware_inv {σ : Type} (svc : Service σ) (B : Nat) (data : List Nat)
    (fuel : Nat) (s : σ) (r : Run σ Bool)
    (h : write_update_firmware_with svc B data fuel s = some r) :
    ∃ l, write_loop svc B data fuel 0 0 s = some l ∧
      ((l.ret.1 = false ∧ r = ⟨false, l.state, l.trace⟩) ∨
       (l.ret.1 = true ∧ ∃ st info s2 diag,
          svc.psa_fwu_query image_id_ns_staging l.state = ((st, info), s2) ∧
          (r.ret = true ↔ st = PSA_SUCCESS ∧ info.state = PSA_IMAGE_CANDIDATE) ∧
          r.state = s2 ∧
          r.trace = l.trace ++
            (.printf "\r%d/%d (bytes) completed\r\n" [.nat l.ret.2, .nat data.length] ::
              .query image_id_ns_staging st info :: diag) ∧
          calls diag = [] ∧ writes diag = [] ∧
          diag =
            (if st ≠ PSA_SUCCESS then [.printf "Query NS staging image: %d\r\n" [.int st]]
             else if info.state ≠ PSA_IMAGE_CANDIDATE then
               [.printf ("NS staging image's state should be PSA_IMAGE_CANDIDATE instead of %s"
                   ++ "after successful write\r\n")
                 [.str psa_image_status_arr[info.state]?]]
             else []))) := by
  unfold write_update_firmware_with at h
  cases hl : write_loop svc B data fuel 0 0 s with
  | none => rw [hl] at h; simp at h
  | some l =>
    rw [hl] at h
    refine ⟨l, rfl, ?_⟩
    by_cases hret : l.ret.1 = false
    · left
      simp only [hret, if_true, Option.some.injEq] at h
      exact ⟨hret, h.symm⟩
    · right
      have hret2 : l.ret.1 = true := by simpa using hret
      refine ⟨hret2, (svc.psa_fwu_query image_id_ns_staging l.state).1.1,
        (svc.psa_fwu_query image_id_ns_staging l.state).1.2,
        (svc.psa_fwu_query image_id_ns_staging l.state).2, ?_⟩
      simp only [] at h
      rw [if_neg hret] at h
      by_cases h1 : (svc.psa_fwu_query image_id_ns_staging l.state).1.1 = PSA_SUCCESS
      · by_cases h2 : (svc.psa_fwu_query image_id_ns_staging l.state).1.2.state
            = PSA_IMAGE_CANDIDATE
        · simp only [h1, h2, ne_eq, not_true_eq_false, if_false, Option.some.injEq] at h
          refine ⟨[], rfl, ?_⟩
          rw [← h]
          simp [h1, h2, calls, writes]
        · simp only [h1, h2, ne_eq, not_true_eq_false, if_false, not_false_eq_true, if_true,
            Option.some.injEq] at h
          refine ⟨[.printf ("NS staging image's state should be PSA_IMAGE_CANDIDATE instead of %s"
              ++ "after successful write\r\n")
            [.str psa_image_status_arr[(svc.psa_fwu_query image_id_ns_staging
              l.state).1.2.state]?]], rfl, ?_⟩
          rw [← h]
          refine ⟨by simp [h2], rfl, ?_, ?_, ?_, ?_⟩
          · simp only [h1]
          · simp [calls]
          · simp [writes]
          · simp [h1, h2]
      · simp only [h1, ne_eq, not_false_eq_true, if_true, Option.some.injEq] at h
        refine ⟨[.printf "Query NS staging image: %d\r\n"
          [.int (svc.psa_fwu_query image_id_ns_staging l.state).1.1]], rfl, ?_⟩
        rw [← h]
        refine ⟨by simp [h1], rfl, rfl, ?_, ?_, ?_⟩
        · simp [calls]
        · simp [writes]
        · simp [h1]

/-- With a block size of at least one byte and more fuel than the image has
bytes, `write_update_firmware` returns. -/
theorem write_update_firmware_total {σ : Type} (svc : Service σ) (B : Nat) (hB : 1 ≤ B)
    (data : List Nat) (fuel : Nat) (hfuel : data.length < fuel) (s : σ) :
    ∃ r, write_update_firmware_with svc B data fuel s = some r := by
  obtain ⟨l, hl⟩ := write_loop_total svc B hB data fuel 0 0 s (by omega)
  unfold write_update_firmware_with
  rw [hl]
  simp only
  split
  · exact ⟨_, rfl⟩
  · split
    · exact ⟨_, rfl⟩
    · split
      · exact ⟨_, rfl⟩
      · exact ⟨_, rfl⟩

/-- The write calls of `write_update_firmware` are those of its loop. -/
theorem write_update_firmware_writes {σ : Type} (svc : Service σ) (B : Nat) (data : List Nat)
    (fuel : Nat) (s : σ) (r : Run σ Bool) (l : Run σ (Bool × Nat))
    (h : write_update_firmware_with svc B data fuel s = some r)
    (hl : write_loop svc B data fuel 0 0 s = some l) :
    writes r.trace = writes l.trace := by
  obtain ⟨l2, hl2, hcase⟩ := write_update_firmware_inv svc B data fuel s r h
  rw [hl] at hl2
  cases hl2
  rcases hcase with ⟨_, rfl⟩ | ⟨_, st, info, s2, diag, _, _, _, htr, _, hwd, _⟩
  · rfl
  · rw [htr]
    simp only [writes, List.filterMap_append, List.filterMap_cons] at hwd ⊢
    simp [hwd]

/-- When every write that `write_update_firmware` issued succeeded, its loop
ran to the end. -/
theorem write_loop_complete_of_writes_ok {σ : Type} (svc : Service σ) (B : Nat)
    (data : List Nat) (fuel : Nat) (s : σ) (r : Run σ Bool) (l : Run σ (Bool × Nat))
    (h : write_update_firmware_with svc B data fuel s = some r)
    (hl : write_loop svc B data fuel 0 0 s = some l)
    (hok : ∀ w ∈ writes r.trace, w.status = PSA_SUCCESS) :
    l.ret.1 = true := by
  rw [write_update_firmware_writes svc B data fuel s r l h hl] at hok
  by_contra hne
  have hf : l.ret.1 = false := by simpa using hne
  obtain ⟨ws, w, hws, _, hw, _⟩ := (write_loop_shape svc B data fuel 0 0 s l hl).2.2.2.2.2 hf
  exact hw (hok w (by rw [hws]; simp))

/-- The write calls of a run of `write_update_firmware` in which every write
succeeded: block `i` goes to offset `i * B` and has `min B (length - i * B)`
bytes, for `i` below the rounded-up quotient of the length by `B`. -/
theorem write_update_firmware_blocks {σ : Type} (svc : Service σ) (B : Nat) (hB : 1 ≤ B)
    (data : List Nat) (fuel : Nat) (s : σ) (r : Run σ Bool)
    (h : write_update_firmware_with svc B data fuel s = some r)
    (hok : ∀ w ∈ writes r.trace, w.status = PSA_SUCCESS) :
    writes r.trace = (List.range ((data.length + B - 1) / B)).map (fun i =>
        (⟨image_id_ns_staging, i * B,
          (data.drop (i * B)).take (min B (data.length - i * B)),
          min B (data.length - i * B), PSA_SUCCESS⟩ : WriteCall)) ∧
    ((writes r.trace).map (fun w => w.block)).flatten = data := by
  obtain ⟨l, hl, _⟩ := write_update_firmware_inv svc B data fuel s r h
  have hret := write_loop_complete_of_writes_ok svc B data fuel s r l h hl hok
  obtain ⟨_, hw, hj⟩ := write_loop_ok svc B hB data fuel 0 s l hl hret (Nat.zero_le _)
  rw [write_update_firmware_writes svc B data fuel s r l h hl]
  simp only [Nat.zero_add, Nat.sub_zero, List.drop_zero] at hw hj
  exact ⟨hw, hj⟩

/-- A service whose writes always succeed makes every write of a run succeed. -/
theorem writes_ok_of_service_ok {σ : Type} (svc : Service σ) (B : Nat) (data : List Nat)
    (hsvc : ∀ id off blk n s, (svc.psa_fwu_write id off blk n s).1 = PSA_SUCCESS) :
    ∀ (fuel pos dst : Nat) (s : σ) (l : Run σ (Bool × Nat)),
      write_loop svc B data fuel pos dst s = some l → l.ret.1 = true := by
  intro fuel
  induction fuel with
  | zero => intro pos dst s l h; simp [write_loop] at h
  | succ fuel ih =>
    intro pos dst s l h
    rcases write_loop_inv svc B data fuel pos dst s l h with
      ⟨_, rfl⟩ | ⟨_, todo, blk, st, s1, _, _, hcall, ⟨hst, rfl⟩ | ⟨_, r1, hr1, rfl⟩⟩
    · rfl
    · have := hsvc image_id_ns_staging dst blk todo s
      rw [hcall] at this
      exact absurd this hst
    · exact ih _ _ _ r1 hr1
/-! ## Chunking (C1, C2) -/

/-- C1: with a block size `B` of at least one byte (752 in the program) the
transfer returns, and when every write it issued succeeded it issued the
length divided by `B`, rounded up, many writes (none for an empty image); every
write but the last has `B` bytes and the last has `length % B` bytes, or `B`
when that remainder is zero. -/
theorem write_update_firmware_write_count {σ : Type} (svc : Service σ) (B : Nat)
    (hB : 1 ≤ B) (data : List Nat) (fuel : Nat) (hfuel : data.length < fuel) (s : σ) :
    ∃ r, write_update_firmware_with svc B data fuel s = some r ∧
      ((∀ w ∈ writes r.trace, w.status = PSA_SUCCESS) →
        (writes r.trace).length = (data.length + B - 1) / B ∧
        (data.length = 0 → writes r.trace = []) ∧
        ∀ (i : Nat) (hi : i < (writes r.trace).length),
          (writes r.trace)[i].block_size =
            if i + 1 < (writes r.trace).length then B
            else if data.length % B = 0 then B else data.length % B) := by
  obtain ⟨r, hr⟩ := write_update_firmware_total svc B hB data fuel hfuel s
  refine ⟨r, hr, fun hok => ?_⟩
  obtain ⟨hw, _⟩ := write_update_firmware_blocks svc B hB data fuel s r hr hok
  generalize writes r.trace = ws at hw
  subst hw
  have hn1 : (data.length + B - 1) / B * B ≤ data.length + B - 1 := Nat.div_mul_le_self _ _
  have hn2 : data.length + B - 1 < B * ((data.length + B - 1) / B + 1) :=
    Nat.lt_mul_div_succ _ (by omega)
  refine ⟨by simp, fun h0 => ?_, fun i hi => ?_⟩
  · have : (data.length + B - 1) / B = 0 := Nat.div_eq_of_lt (by omega)
    simp [this]
  · simp only [List.length_map, List.length_range] at hi ⊢
    simp only [List.getElem_map, List.getElem_range]
    have hp1 : (i + 1) * B = i * B + B := by ring
    have hp2 : (i + 2) * B = i * B + B + B := by ring
    by_cases hlast : i + 1 < (data.length + B - 1) / B
    · have hle : (i + 2) * B ≤ (data.length + B - 1) / B * B :=
        Nat.mul_le_mul_right B (by omega)
      rw [if_pos hlast]
      omega
    · have hi1 : (data.length + B - 1) / B = i + 1 := by omega
      rw [hi1] at hn1 hn2
      have hp3 : B * (i + 1 + 1) = i * B + B + B := by ring
      rw [if_neg hlast]
      have hx : data.length = (data.length - i * B) + i * B := by omega
      have hmod : data.length % B = (data.length - i * B) % B := by
        conv_lhs => rw [hx]
        exact Nat.add_mul_mod_self_right _ _ _
      by_cases hfull : data.length - i * B = B
      · rw [hmod, hfull]
        simp
      · have hlt : data.length - i * B < B := by omega
        rw [hmod, Nat.mod_eq_of_lt hlt]
        have hne : data.length - i * B ≠ 0 := by omega
        rw [if_neg hne]
        omega

/-- Scenario A: an image of 2000 bytes with block size 752, every write
succeeding, is written in three blocks of 752, 752 and 496 bytes. -/
theorem write_update_firmware_write_count_witness :
    ∃ r, write_update_firmware (queryService 0 0 0 1) (sampleImage 2000) () = some r ∧
      (writes r.trace).map (fun w => w.block_size) = [752, 752, 496] := by
  have hlen : (sampleImage 2000).length = 2000 := by simp [sampleImage]
  obtain ⟨r, hr, h⟩ := write_update_firmware_write_count (queryService 0 0 0 1) 752
    (by decide) (sampleImage 2000) ((sampleImage 2000).length + 1) (by omega) ()
  refine ⟨r, hr, ?_⟩
  have hok : ∀ w ∈ writes r.trace, w.status = PSA_SUCCESS := by
    obtain ⟨l, hl, _⟩ := write_update_firmware_inv _ _ _ _ _ r hr
    have hret := writes_ok_of_service_ok (queryService 0 0 0 1) 752 (sampleImage 2000)
      (fun _ _ _ _ _ => rfl) _ _ _ _ l hl
    rw [write_update_firmware_writes _ _ _ _ _ r l hr hl]
    exact (write_loop_shape _ _ _ _ _ _ _ l hl).2.2.2.2.1 hret
  obtain ⟨hcount, _, hsize⟩ := h hok
  rw [hlen] at hcount hsize
  have h3 : (writes r.trace).length = 3 := by rw [hcount]
  apply List.ext_getElem
  · simp [h3]
  · intro i h1 h2
    simp only [List.length_map, h3] at h1
    rw [List.getElem_map, hsize i (by omega), h3]
    match i, h1 with
    | 0, _ => rfl
    | 1, _ => rfl
    | 2, _ => rfl

/-- C2: with a block size of at least one byte the transfer returns, and when
every write it issued succeeded the writes partition the image: the first
goes to offset 0, each later one to the previous offset plus the previous
size (so offsets increase strictly), each one addresses the staging identity
and carries exactly the `block_size` source bytes found at its offset, no
block is empty or reaches past the image, and the blocks put together in
issue order are the image. -/
theorem write_update_firmware_partition {σ : Type} (svc : Service σ) (B : Nat)
    (hB : 1 ≤ B) (data : List Nat) (fuel : Nat) (hfuel : data.length < fuel) (s : σ) :
    ∃ r, write_update_firmware_with svc B data fuel s = some r ∧
      ((∀ w ∈ writes r.trace, w.status = PSA_SUCCESS) →
        (∀ (h0 : 0 < (writes r.trace).length), (writes r.trace)[0].block_offset = 0) ∧
        (∀ (i : Nat) (hi : i + 1 < (writes r.trace).length),
          (writes r.trace)[i + 1].block_offset =
            (writes r.trace)[i].block_offset + (writes r.trace)[i].block_size ∧
          (writes r.trace)[i].block_offset < (writes r.trace)[i + 1].block_offset) ∧
        (∀ w ∈ writes r.trace,
          w.id = image_id_ns_staging ∧
          w.block = (data.drop w.block_offset).take w.block_size ∧
          w.block.length = w.block_size ∧ 0 < w.block_size ∧
          w.block_offset + w.block_size ≤ data.length) ∧
        ((writes r.trace).map (fun w => w.block)).flatten = data) := by
  obtain ⟨r, hr⟩ := write_update_firmware_total svc B hB data fuel hfuel s
  refine ⟨r, hr, fun hok => ?_⟩
  obtain ⟨hw, hj⟩ := write_update_firmware_blocks svc B hB data fuel s r hr hok
  refine ⟨?_, ?_, ?_, hj⟩
  · clear hj
    generalize writes r.trace = ws at hw
    subst hw
    intro h0
    simp
  · clear hj
    generalize writes r.trace = ws at hw
    subst hw
    intro i hi
    simp only [List.length_map, List.length_range] at hi
    simp only [List.getElem_map, List.getElem_range]
    have hn1 : (data.length + B - 1) / B * B ≤ data.length + B - 1 := Nat.div_mul_le_self _ _
    have hle : (i + 2) * B ≤ (data.length + B - 1) / B * B :=
      Nat.mul_le_mul_right B (by omega)
    have hp1 : (i + 1) * B = i * B + B := by ring
    have hp2 : (i + 2) * B = i * B + B + B := by ring
    omega
  · intro w hw2
    rw [hw] at hw2
    obtain ⟨i, hi, rfl⟩ := List.mem_map.mp hw2
    have hi2 : i < (data.length + B - 1) / B := List.mem_range.mp hi
    have hn1 : (data.length + B - 1) / B * B ≤ data.length + B - 1 := Nat.div_mul_le_self _ _
    have hle : (i + 1) * B ≤ (data.length + B - 1) / B * B :=
      Nat.mul_le_mul_right B (by omega)
    have hp1 : (i + 1) * B = i * B + B := by ring
    refine ⟨rfl, rfl, ?_, ?_, ?_⟩
    · simp only [List.length_take, List.length_drop]
      omega
    · simp only
      omega
    · simp only
      omega

/-- A run of C2: five bytes in blocks of two are written as `[0, 1]` at
offset 0, `[2, 3]` at offset 2 and `[4]` at offset 4. -/
theorem write_update_firmware_partition_witness :
    (∃ r, write_update_firmware_with (queryService 0 0 0 1) 2 (sampleImage 5) 6 () = some r ∧
      ((∀ w ∈ writes r.trace, w.status = PSA_SUCCESS) →
        ((writes r.trace).map (fun w => w.block)).flatten = sampleImage 5)) ∧
    (write_update_firmware_with (queryService 0 0 0 1) 2 (sampleImage 5) 6 ()).map
      (fun r => (writes r.trace).map (fun w => (w.block_offset, w.block, w.status)))
      = some [(0, [0, 1], 0), (2, [2, 3], 0), (4, [4], 0)] := by
  refine ⟨?_, by decide⟩
  obtain ⟨r, hr, h⟩ := write_update_firmware_partition (queryService 0 0 0 1) 2 (by decide)
    (sampleImage 5) 6 (by decide) ()
  exact ⟨r, hr, fun hok => (h hok).2.2.2⟩

/-! ## Verification after the transfer (C3) and a failed write (C6) -/

/-- C3: with a block size of at least one byte the function returns, and when
every write it issued succeeded it issues exactly one query, on the staging
identity and in the state the writes left the service in, and returns `true`
exactly when that query answers `PSA_SUCCESS` with state
`PSA_IMAGE_CANDIDATE`; with any other answer it returns `false`. -/
theorem write_update_firmware_success_iff {σ : Type} (svc : Service σ) (B : Nat)
    (hB : 1 ≤ B) (data : List Nat) (fuel : Nat) (hfuel : data.length < fuel) (s : σ) :
    ∃ r, write_update_firmware_with svc B data fuel s = some r ∧
      ((∀ w ∈ writes r.trace, w.status = PSA_SUCCESS) →
        ∃ l st info, write_loop svc B data fuel 0 0 s = some l ∧
          svc.psa_fwu_query image_id_ns_staging l.state = ((st, info), r.state) ∧
          queries r.trace = [.query image_id_ns_staging st info] ∧
          (r.ret = true ↔ st = PSA_SUCCESS ∧ info.state = PSA_IMAGE_CANDIDATE) ∧
          (r.ret = false ↔ ¬ (st = PSA_SUCCESS ∧ info.state = PSA_IMAGE_CANDIDATE))) := by
  obtain ⟨r, hr⟩ := write_update_firmware_total svc B hB data fuel hfuel s
  refine ⟨r, hr, fun hok => ?_⟩
  obtain ⟨l, hl, hcase⟩ := write_update_firmware_inv svc B data fuel s r hr
  have hret := write_loop_complete_of_writes_ok svc B data fuel s r l hr hl hok
  rcases hcase with ⟨hf, _⟩ | ⟨_, st, info, s2, diag, hq, hiff, hs, htr, hcd, _, _⟩
  · rw [hret] at hf
    exact absurd hf (by decide)
  · refine ⟨l, st, info, hl, by rw [hq, hs], ?_, hiff, ?_⟩
    · have hql := (write_loop_shape svc B data fuel 0 0 s l hl).1
      have hqd : queries diag = [] := by
        have hsub : ∀ e ∈ queries diag, e ∈ calls diag := by
          intro e he
          simp only [queries, calls, List.mem_filter] at he ⊢
          refine ⟨he.1, ?_⟩
          cases e <;> simp_all
        cases hd : queries diag with
        | nil => rfl
        | cons e es =>
          have := hsub e (by rw [hd]; simp)
          rw [hcd] at this
          simp at this
      rw [htr]
      simp only [queries, List.filter_append, List.filter_cons] at hql hqd ⊢
      simp [hql, hqd]
    · rw [← hiff]
      cases r.ret <;> simp

/-- Scenario B, run: all five bytes are written, the query answers state 2
(`Installed`), and the function returns `false`. -/
theorem write_update_firmware_success_iff_witness :
    (∃ r, write_update_firmware_with (queryService 0 0 0 2) 2 (sampleImage 5) 6 () = some r ∧
      ((∀ w ∈ writes r.trace, w.status = PSA_SUCCESS) →
        ∃ st info, queries r.trace = [.query image_id_ns_staging st info] ∧
          (r.ret = true ↔ st = PSA_SUCCESS ∧ info.state = PSA_IMAGE_CANDIDATE))) ∧
    (write_update_firmware_with (queryService 0 0 0 2) 2 (sampleImage 5) 6 ()).map
      (fun r => (r.ret, (writes r.trace).map (fun w => w.status), queries r.trace))
      = some (false, [0, 0, 0],
          [.query image_id_ns_staging 0 ⟨PSA_IMAGE_INSTALLED, version0⟩]) := by
  refine ⟨?_, by decide⟩
  obtain ⟨r, hr, h⟩ := write_update_firmware_success_iff (queryService 0 0 0 2) 2 (by decide)
    (sampleImage 5) 6 (by decide) ()
  refine ⟨r, hr, fun hok => ?_⟩
  obtain ⟨_, st, info, _, _, hq, hiff, _⟩ := h hok
  exact ⟨st, info, hq, hiff⟩

/-- C6: with a block size of at least one byte the function returns, and when
write number `k + 1` (index `k`) answered a status other than `PSA_SUCCESS`,
it returns `false` having issued exactly `k + 1` calls, all of them writes:
no further write, no abort, no install and no query; the writes before it
had all succeeded. -/
theorem write_update_firmware_stops_at_failed_write {σ : Type} (svc : Service σ) (B : Nat)
    (hB : 1 ≤ B) (data : List Nat) (fuel : Nat) (hfuel : data.length < fuel) (s : σ) :
    ∃ r, write_update_firmware_with svc B data fuel s = some r ∧
      ∀ (k : Nat) (hk : k < (writes r.trace).length),
        (writes r.trace)[k].status ≠ PSA_SUCCESS →
        r.ret = false ∧
        (writes r.trace).length = k + 1 ∧
        (calls r.trace).length = k + 1 ∧
        queries r.trace = [] ∧ aborts r.trace = [] ∧ installs r.trace = [] ∧
        ∀ (j : Nat) (hj : j < k), (writes r.trace)[j].status = PSA_SUCCESS := by
  obtain ⟨r, hr⟩ := write_update_firmware_total svc B hB data fuel hfuel s
  refine ⟨r, hr, fun k hk hfail => ?_⟩
  obtain ⟨l, hl, hcase⟩ := write_update_firmware_inv svc B data fuel s r hr
  have hwr := write_update_firmware_writes svc B data fuel s r l hr hl
  obtain ⟨hq, ha, hi, hc, hokl, hfl⟩ := write_loop_shape svc B data fuel 0 0 s l hl
  have hlf : l.ret.1 = false := by
    by_contra hne
    have ht : l.ret.1 = true := by simpa using hne
    have hall := hokl ht
    rw [← hwr] at hall
    exact hfail (hall _ (List.getElem_mem hk))
  rcases hcase with ⟨_, rfl⟩ | ⟨ht, _⟩
  · obtain ⟨ws, w, hws, hall, hw, _⟩ := hfl hlf
    refine ⟨rfl, ?_⟩
    simp only at hk hfail hwr ⊢
    generalize writes l.trace = wl at hws hk hfail hc
    subst hws
    have hkl : k = ws.length := by
      by_contra hne
      have hlt : k < ws.length := by
        simp only [List.length_append, List.length_singleton] at hk
        omega
      rw [List.getElem_append_left hlt] at hfail
      exact hfail (hall _ (List.getElem_mem hlt))
    refine ⟨by simp [hkl], by simp [hc, hkl], hq, ha, hi, fun j hj => ?_⟩
    have hlt : j < ws.length := by omega
    rw [List.getElem_append_left hlt]
    exact hall _ (List.getElem_mem hlt)
  · rw [hlf] at ht
    exact absurd ht (by decide)

/-- A run of C6: five bytes in blocks of two, the second write (offset 2)
failing with `-1`: two calls, both writes, and `false`. -/
theorem write_update_firmware_stops_at_failed_write_witness :
    (∃ r, write_update_firmware_with (scriptedService 2 0 1 0 0) 2 (sampleImage 5) 6 ()
        = some r ∧
      ∀ (k : Nat) (hk : k < (writes r.trace).length),
        (writes r.trace)[k].status ≠ PSA_SUCCESS →
        r.ret = false ∧ (calls r.trace).length = k + 1 ∧ queries r.trace = [] ∧
        aborts r.trace = []) ∧
    (write_update_firmware_with (scriptedService 2 0 1 0 0) 2 (sampleImage 5) 6 ()).map
      (fun r => (r.ret, (writes r.trace).map (fun w => (w.block_offset, w.status)),
        (calls r.trace).length))
      = some (false, [(0, 0), (2, -1)], 2) := by
  refine ⟨?_, by decide⟩
  obtain ⟨r, hr, h⟩ := write_update_firmware_stops_at_failed_write (scriptedService 2 0 1 0 0)
    2 (by decide) (sampleImage 5) 6 (by decide) ()
  refine ⟨r, hr, fun k hk hf => ?_⟩
  obtain ⟨h1, _, h3, h4, h5, _⟩ := h k hk hf
  exact ⟨h1, h3, h4, h5⟩


/-! ## The state-name table (C9) -/

/-- C9: the table of state names has six entries and the program reads it at
the state code without a range check.  When a successful query answers state
code 6, `show_image_info` and the mismatch diagnostics of write, install and
abort all read entry 6, past the end of the table (`Arg.str none`). -/
theorem state_name_lookup_out_of_bounds :
    psa_image_status_arr.length = 6 ∧
    psa_image_status_arr[6]? = none ∧
    prints (show_image_info (queryService PSA_SUCCESS 6 PSA_SUCCESS 6) ()).trace =
      [.printf "NS active image: state=%s, version=%d.%d.%d+%d\r\n"
         [.str none, .nat 1, .nat 2, .nat 3, .nat 4],
       .printf "NS staging image: state=%s, version=%d.%d.%d+%d\r\n"
         [.str none, .nat 1, .nat 2, .nat 3, .nat 4]] ∧
    (write_update_firmware (scriptedService 1 PSA_SUCCESS 6 0 0) [7] ()).map
        (fun r => (r.trace.getLast?, r.ret)) =
      some (some (.printf ("NS staging image's state should be PSA_IMAGE_CANDIDATE instead of %s"
        ++ "after successful write\r\n") [.str none]), false) ∧
    (install_update_firmware (scriptedService 0 PSA_SUCCESS 6 PSA_SUCCESS_REBOOT 0) ()
        ).trace.getLast? =
      some (.printf ("NS staging image's state should be PSA_IMAGE_REBOOT_NEEDED instead of %s"
        ++ "after successful write\r\n") [.str none]) ∧
    (abort_update_firmware (scriptedService 0 PSA_SUCCESS 6 0 PSA_SUCCESS) ()).trace.getLast? =
      some (.printf ("NS staging image's state should be PSA_IMAGE_UNDEFINED instead of %s"
        ++ "after successful write\r\n") [.str none]) := by
  refine ⟨by decide, by decide, by decide, by decide, by decide, by decide⟩

/-! ## `show_image_info` (C10) -/

/-- C10: `show_image_info` issues exactly two calls, a query of the active
identity and then a query of the staging identity (asked in the state the
first query left), each followed by one report line.  The staging query and
its report are the same in any two runs in which the staging query gets the
same answer, whatever the active query answered, and the other way round; a
successful query is reported with its state and version whatever the other
query answered. -/
theorem show_image_info_independent {σ τ : Type} (svc : Service σ) (s : σ)
    (svc2 : Service τ) (s2 : τ) :
    calls (show_image_info svc s).trace =
      [.query image_id_ns_active (svc.psa_fwu_query image_id_ns_active s).1.1
          (svc.psa_fwu_query image_id_ns_active s).1.2,
       .query image_id_ns_staging
          (svc.psa_fwu_query image_id_ns_staging (svc.psa_fwu_query image_id_ns_active s).2).1.1
          (svc.psa_fwu_query image_id_ns_staging
            (svc.psa_fwu_query image_id_ns_active s).2).1.2] ∧
    (show_image_info svc s).trace.length = 4 ∧
    (prints ((show_image_info svc s).trace.take 2)).length = 1 ∧
    (prints ((show_image_info svc s).trace.drop 2)).length = 1 ∧
    ((svc.psa_fwu_query image_id_ns_staging (svc.psa_fwu_query image_id_ns_active s).2).1 =
        (svc2.psa_fwu_query image_id_ns_staging
          (svc2.psa_fwu_query image_id_ns_active s2).2).1 →
      (show_image_info svc s).trace.drop 2 = (show_image_info svc2 s2).trace.drop 2) ∧
    ((svc.psa_fwu_query image_id_ns_active s).1 = (svc2.psa_fwu_query image_id_ns_active s2).1 →
      (show_image_info svc s).trace.take 2 = (show_image_info svc2 s2).trace.take 2) ∧
    ((svc.psa_fwu_query image_id_ns_staging (svc.psa_fwu_query image_id_ns_active s).2).1.1
        = PSA_SUCCESS →
      (show_image_info svc s).trace.getLast? =
        some (.printf "NS staging image: state=%s, version=%d.%d.%d+%d\r\n"
          [.str psa_image_status_arr[(svc.psa_fwu_query image_id_ns_staging
              (svc.psa_fwu_query image_id_ns_active s).2).1.2.state]?,
           .nat (svc.psa_fwu_query image_id_ns_staging
              (svc.psa_fwu_query image_id_ns_active s).2).1.2.version.iv_major,
           .nat (svc.psa_fwu_query image_id_ns_staging
              (svc.psa_fwu_query image_id_ns_active s).2).1.2.version.iv_minor,
           .nat (svc.psa_fwu_query image_id_ns_staging
              (svc.psa_fwu_query image_id_ns_active s).2).1.2.version.iv_revision,
           .nat (svc.psa_fwu_query image_id_ns_staging
              (svc.psa_fwu_query image_id_ns_active s).2).1.2.version.iv_build_num])) ∧
    ((svc.psa_fwu_query image_id_ns_active s).1.1 = PSA_SUCCESS →
      (show_image_info svc s).trace[1]? =
        some (.printf "NS active image: state=%s, version=%d.%d.%d+%d\r\n"
          [.str psa_image_status_arr[(svc.psa_fwu_query image_id_ns_active s).1.2.state]?,
           .nat (svc.psa_fwu_query image_id_ns_active s).1.2.version.iv_major,
           .nat (svc.psa_fwu_query image_id_ns_active s).1.2.version.iv_minor,
           .nat (svc.psa_fwu_query image_id_ns_active s).1.2.version.iv_revision,
           .nat (svc.psa_fwu_query image_id_ns_active s).1.2.version.iv_build_num])) := by
  refine ⟨?_, ?_, ?_, ?_, ?_, ?_, ?_, ?_⟩
  · unfold show_image_info calls
    simp only
    split <;> split <;> simp
  · simp [show_image_info]
  · unfold show_image_info prints
    by_cases h1 : (svc.psa_fwu_query image_id_ns_active s).1.1 = PSA_SUCCESS <;>
      simp [h1]
  · unfold show_image_info prints
    by_cases h2 : (svc.psa_fwu_query image_id_ns_staging
        (svc.psa_fwu_query image_id_ns_active s).2).1.1 = PSA_SUCCESS <;>
      simp [h2]
  · intro h
    simp only [show_image_info, List.drop_succ_cons, List.drop_zero, h]
  · intro h
    simp only [show_image_info, List.take_succ_cons, List.take_zero, h]
  · intro h
    simp [show_image_info, h]
  · intro h
    simp [show_image_info, h]

/-- Two runs of C10: the active query fails with `-1` in the first and answers
state 2 in the second, the staging query answers state 1 in both; the staging
query and its report are the same, and the failed active query is followed by
the staging report. -/
theorem show_image_info_independent_witness :
    (show_image_info (queryService (-1) 0 PSA_SUCCESS 1) ()).trace.drop 2 =
      (show_image_info (queryService PSA_SUCCESS 2 PSA_SUCCESS 1) ()).trace.drop 2 ∧
    (show_image_info (queryService (-1) 0 PSA_SUCCESS 1) ()).trace.getLast? =
      some (.printf "NS staging image: state=%s, version=%d.%d.%d+%d\r\n"
        [.str (some "PSA_IMAGE_CANDIDATE"), .nat 1, .nat 2, .nat 3, .nat 4]) :=
  ⟨(show_image_info_independent (queryService (-1) 0 PSA_SUCCESS 1) ()
      (queryService PSA_SUCCESS 2 PSA_SUCCESS 1) ()).2.2.2.2.1 rfl,
    (show_image_info_independent (queryService (-1) 0 PSA_SUCCESS 1) ()
      (queryService PSA_SUCCESS 2 PSA_SUCCESS 1) ()).2.2.2.2.2.2.1 rfl⟩

/-! ## What the caller can tell apart (C8) -/

/-- C8 as stated fails: in each of the three operations a failed primitive
call, a failed verification query and an unexpected state all give the caller
the same result, `false`. -/
theorem failure_causes_same_result :
    (abort_update_firmware (scriptedService 0 0 0 0 (-1)) ()).ret = false ∧
    (abort_update_firmware (scriptedService 0 (-1) 0 0 0) ()).ret = false ∧
    (abort_update_firmware (scriptedService 0 0 2 0 0) ()).ret = false ∧
    (install_update_firmware (scriptedService 0 0 5 (-1) 0) ()).ret = false ∧
    (install_update_firmware (scriptedService 0 (-1) 5 1 0) ()).ret = false ∧
    (install_update_firmware (scriptedService 0 0 1 1 0) ()).ret = false ∧
    (write_update_firmware (scriptedService 0 0 1 0 0) [7, 8] ()).map (fun r => r.ret)
      = some false ∧
    (write_update_firmware (scriptedService 9 (-1) 1 0 0) [7, 8] ()).map (fun r => r.ret)
      = some false ∧
    (write_update_firmware (scriptedService 9 0 2 0 0) [7, 8] ()).map (fun r => r.ret)
      = some false := by
  refine ⟨by decide, by decide, by decide, by decide, by decide, by decide, by decide,
    by decide, by decide⟩

/-- C8, amended: in each of the three operations a failed primitive call, a
failed verification query and an unexpected state all return `false`; what
tells them apart is the diagnostic printed last, whose format string names
the failed primitive, the failed query, or the state that was expected, and
these three format strings are pairwise different in each operation. -/
theorem failure_causes_distinct_diagnostics {σ : Type} (svc : Service σ) (s : σ) (B : Nat)
    (hB : 1 ≤ B) (data : List Nat) (fuel : Nat) (hfuel : data.length < fuel) :
    (∃ r, write_update_firmware_with svc B data fuel s = some r ∧
      ((∃ w ∈ writes r.trace, w.status ≠ PSA_SUCCESS) →
        r.ret = false ∧ diagnostic r.trace = some "psa_fwu_write() failed: %d\r\n") ∧
      ((∀ w ∈ writes r.trace, w.status = PSA_SUCCESS) →
        ∀ st info, queries r.trace = [.query image_id_ns_staging st info] →
          (st ≠ PSA_SUCCESS →
            r.ret = false ∧ diagnostic r.trace = some "Query NS staging image: %d\r\n") ∧
          (st = PSA_SUCCESS → info.state ≠ PSA_IMAGE_CANDIDATE →
            r.ret = false ∧ diagnostic r.trace =
              some ("NS staging image's state should be PSA_IMAGE_CANDIDATE instead of %s"
                ++ "after successful write\r\n")))) ∧
    ((svc.psa_fwu_install image_id_ns_staging s).1.1 ≠ PSA_SUCCESS_REBOOT →
      (install_update_firmware svc s).ret = false ∧
      diagnostic (install_update_firmware svc s).trace
        = some "psa_fwu_install() failed: %d\r\n") ∧
    ((svc.psa_fwu_install image_id_ns_staging s).1.1 = PSA_SUCCESS_REBOOT →
      (svc.psa_fwu_query image_id_ns_staging
        (svc.psa_fwu_install image_id_ns_staging s).2).1.1 ≠ PSA_SUCCESS →
      (install_update_firmware svc s).ret = false ∧
      diagnostic (install_update_firmware svc s).trace
        = some "Query NS staging image: %d\r\n") ∧
    ((svc.psa_fwu_install image_id_ns_staging s).1.1 = PSA_SUCCESS_REBOOT →
      (svc.psa_fwu_query image_id_ns_staging
        (svc.psa_fwu_install image_id_ns_staging s).2).1.1 = PSA_SUCCESS →
      (svc.psa_fwu_query image_id_ns_staging
        (svc.psa_fwu_install image_id_ns_staging s).2).1.2.state ≠ PSA_IMAGE_REBOOT_NEEDED →
      (install_update_firmware svc s).ret = false ∧
      diagnostic (install_update_firmware svc s).trace
        = some ("NS staging image's state should be PSA_IMAGE_REBOOT_NEEDED instead of %s"
            ++ "after successful write\r\n")) ∧
    ((svc.psa_fwu_abort image_id_ns_staging s).1 ≠ PSA_SUCCESS →
      (abort_update_firmware svc s).ret = false ∧
      diagnostic (abort_update_firmware svc s).trace
        = some "psa_fwu_abort() failed with %d\r\n") ∧
    ((svc.psa_fwu_abort image_id_ns_staging s).1 = PSA_SUCCESS →
      (svc.psa_fwu_query image_id_ns_staging
        (svc.psa_fwu_abort image_id_ns_staging s).2).1.1 ≠ PSA_SUCCESS →
      (abort_update_firmware svc s).ret = false ∧
      diagnostic (abort_update_firmware svc s).trace
        = some "Query NS staging image: %d\r\n") ∧
    ((svc.psa_fwu_abort image_id_ns_staging s).1 = PSA_SUCCESS →
      (svc.psa_fwu_query image_id_ns_staging
        (svc.psa_fwu_abort image_id_ns_staging s).2).1.1 = PSA_SUCCESS →
      (svc.psa_fwu_query image_id_ns_staging
        (svc.psa_fwu_abort image_id_ns_staging s).2).1.2.state ≠ PSA_IMAGE_UNDEFINED →
      (abort_update_firmware svc s).ret = false ∧
      diagnostic (abort_update_firmware svc s).trace
        = some ("NS staging image's state should be PSA_IMAGE_UNDEFINED instead of %s"
            ++ "after successful write\r\n")) ∧
    ("psa_fwu_write() failed: %d\r\n" ≠ "Query NS staging image: %d\r\n" ∧
      "psa_fwu_write() failed: %d\r\n" ≠
        "NS staging image's state should be PSA_IMAGE_CANDIDATE instead of %s"
          ++ "after successful write\r\n" ∧
      "Query NS staging image: %d\r\n" ≠
        "NS staging image's state should be PSA_IMAGE_CANDIDATE instead of %s"
          ++ "after successful write\r\n") ∧
    ("psa_fwu_install() failed: %d\r\n" ≠ "Query NS staging image: %d\r\n" ∧
      "psa_fwu_install() failed: %d\r\n" ≠
        "NS staging image's state should be PSA_IMAGE_REBOOT_NEEDED instead of %s"
          ++ "after successful write\r\n" ∧
      "Query NS staging image: %d\r\n" ≠
        "NS staging image's state should be PSA_IMAGE_REBOOT_NEEDED instead of %s"
          ++ "after successful write\r\n") ∧
    ("psa_fwu_abort() failed with %d\r\n" ≠ "Query NS staging image: %d\r\n" ∧
      "psa_fwu_abort() failed with %d\r\n" ≠
        "NS staging image's state should be PSA_IMAGE_UNDEFINED instead of %s"
          ++ "after successful write\r\n" ∧
      "Query NS staging image: %d\r\n" ≠
        "NS staging image's state should be PSA_IMAGE_UNDEFINED instead of %s"
          ++ "after successful write\r\n") := by
  refine ⟨?_, ?_, ?_, ?_, ?_, ?_, ?_, by decide, by decide, by decide⟩
  · obtain ⟨r, hr⟩ := write_update_firmware_total svc B hB data fuel hfuel s
    refine ⟨r, hr, ?_, ?_⟩
    · rintro ⟨w, hw, hne⟩
      obtain ⟨l, hl, hcase⟩ := write_update_firmware_inv svc B data fuel s r hr
      have hwr := write_update_firmware_writes svc B data fuel s r l hr hl
      obtain ⟨_, _, _, _, hokl, hfl⟩ := write_loop_shape svc B data fuel 0 0 s l hl
      have hlf : l.ret.1 = false := by
        by_contra hn
        have ht : l.ret.1 = true := by simpa using hn
        rw [hwr] at hw
        exact hne (hokl ht w hw)
      rcases hcase with ⟨_, rfl⟩ | ⟨ht, _⟩
      · obtain ⟨_, v, _, _, _, pre, hpre⟩ := hfl hlf
        refine ⟨rfl, ?_⟩
        simp [diagnostic, hpre]
      · rw [hlf] at ht
        exact absurd ht (by decide)
    · intro hok st info hq
      obtain ⟨l, hl, hcase⟩ := write_update_firmware_inv svc B data fuel s r hr
      have hret := write_loop_complete_of_writes_ok svc B data fuel s r l hr hl hok
      have hql := (write_loop_shape svc B data fuel 0 0 s l hl).1
      rcases hcase with ⟨hf, _⟩ | ⟨_, st0, info0, s2, diag, _, hiff, _, htr, _, _, hdiag⟩
      · rw [hret] at hf
        exact absurd hf (by decide)
      · have hst : st0 = st ∧ info0 = info := by
          rw [htr] at hq
          simp only [queries, List.filter_append, List.filter_cons] at hql hq
          rw [hql] at hq
          simp only [List.nil_append, if_true, if_false] at hq
          have := List.head_eq_of_cons_eq hq
          simp only [Event.query.injEq] at this
          exact ⟨this.2.1, this.2.2⟩
        obtain ⟨rfl, rfl⟩ := hst
        refine ⟨fun h1 => ?_, fun h1 h2 => ?_⟩
        · refine ⟨?_, ?_⟩
          · cases hr2 : r.ret
            · rfl
            · exact absurd (hiff.mp hr2).1 h1
          · rw [htr, hdiag]
            simp [diagnostic, h1]
        · refine ⟨?_, ?_⟩
          · cases hr2 : r.ret
            · rfl
            · exact absurd (hiff.mp hr2).2 h2
          · rw [htr, hdiag]
            simp [diagnostic, h1, h2]
  · intro h
    simp [install_update_firmware, h, diagnostic]
  · intro h h1
    simp [install_update_firmware, h, h1, diagnostic]
  · intro h h1 h2
    simp [install_update_firmware, h, h1, h2, diagnostic]
  · intro h
    simp [abort_update_firmware, h, diagnostic]
  · intro h h1
    simp [abort_update_firmware, h, h1, diagnostic]
  · intro h h1 h2
    simp [abort_update_firmware, h, h1, h2, diagnostic]

/-- Three runs of the amended C8 on `abort_update_firmware`: the abort call
fails, the query fails, the state is `Installed`.  All return `false`, each
with its own diagnostic. -/
theorem failure_causes_distinct_diagnostics_witness :
    diagnostic (abort_update_firmware (scriptedService 0 0 0 0 (-1)) ()).trace
      = some "psa_fwu_abort() failed with %d\r\n" ∧
    diagnostic (abort_update_firmware (scriptedService 0 (-1) 0 0 0) ()).trace
      = some "Query NS staging image: %d\r\n" ∧
    diagnostic (abort_update_firmware (scriptedService 0 0 2 0 0) ()).trace
      = some ("NS staging image's state should be PSA_IMAGE_UNDEFINED instead of %s"
          ++ "after successful write\r\n") :=
  ⟨((failure_causes_distinct_diagnostics (scriptedService 0 0 0 0 (-1)) () 1 (by decide)
      [] 1 (by decide)).2.2.2.2.1 (by decide)).2,
   ((failure_causes_distinct_diagnostics (scriptedService 0 (-1) 0 0 0) () 1 (by decide)
      [] 1 (by decide)).2.2.2.2.2.1 (by decide) (by decide)).2,
   ((failure_causes_distinct_diagnostics (scriptedService 0 0 2 0 0) () 1 (by decide)
      [] 1 (by decide)).2.2.2.2.2.2.1 (by decide) (by decide) (by decide)).2⟩

/-! ## Progress reports (C11, C12) -/

/-- In a loop that ran to its end, each write is followed by one progress
line, and the line shows the offset of the block just written as bytes done. -/
theorem write_loop_progress {σ : Type} (svc : Service σ) (B : Nat) (data : List Nat) :
    ∀ (fuel pos : Nat) (s : σ) (l : Run σ (Bool × Nat)),
      write_loop svc B data fuel pos pos s = some l → l.ret.1 = true →
      progress_reports l.trace = (writes l.trace).map (fun w => (w.block_offset, data.length)) := by
  intro fuel
  induction fuel with
  | zero => intro pos s l h; simp [write_loop] at h
  | succ fuel ih =>
    intro pos s l h hret
    rcases write_loop_inv svc B data fuel pos pos s l h with
      ⟨_, rfl⟩ | ⟨_, todo, blk, st, s1, _, _, _, ⟨_, rfl⟩ | ⟨_, r1, hr1, rfl⟩⟩
    · simp [progress_reports, writes]
    · simp at hret
    · have h1 := ih (pos + todo) s1 r1 hr1 hret
      simp only [progress_reports, writes, List.filterMap_cons] at h1 ⊢
      simp [h1]

/-- A service whose writes always succeed makes every write of
`write_update_firmware` succeed. -/
theorem write_update_firmware_writes_ok {σ : Type} (svc : Service σ) (B : Nat)
    (data : List Nat) (fuel : Nat) (s : σ) (r : Run σ Bool)
    (hsvc : ∀ id off blk n s, (svc.psa_fwu_write id off blk n s).1 = PSA_SUCCESS)
    (h : write_update_firmware_with svc B data fuel s = some r) :
    ∀ w ∈ writes r.trace, w.status = PSA_SUCCESS := by
  obtain ⟨l, hl, _⟩ := write_update_firmware_inv svc B data fuel s r h
  have hret := writes_ok_of_service_ok svc B data hsvc fuel 0 0 s l hl
  rw [write_update_firmware_writes svc B data fuel s r l h hl]
  exact (write_loop_shape svc B data fuel 0 0 s l hl).2.2.2.2.1 hret

/-- The progress reports of a run of `write_update_firmware` in which every
write succeeded: one per write, showing the offset of that write, and then the
line printed after the loop, showing the whole length. -/
theorem write_update_firmware_progress {σ : Type} (svc : Service σ) (B : Nat) (hB : 1 ≤ B)
    (data : List Nat) (fuel : Nat) (s : σ) (r : Run σ Bool)
    (h : write_update_firmware_with svc B data fuel s = some r)
    (hok : ∀ w ∈ writes r.trace, w.status = PSA_SUCCESS) :
    progress_reports r.trace =
      (writes r.trace).map (fun w => (w.block_offset, data.length))
        ++ [(data.length, data.length)] := by
  obtain ⟨l, hl, hcase⟩ := write_update_firmware_inv svc B data fuel s r h
  have hret := write_loop_complete_of_writes_ok svc B data fuel s r l h hl hok
  have hwr := write_update_firmware_writes svc B data fuel s r l h hl
  have hprog := write_loop_progress svc B data fuel 0 s l hl hret
  obtain ⟨hpos, _, _⟩ := write_loop_ok svc B hB data fuel 0 s l hl hret (Nat.zero_le _)
  rcases hcase with ⟨hf, _⟩ | ⟨_, st, info, s2, diag, _, _, _, htr, _, _, hdiag⟩
  · rw [hret] at hf
    exact absurd hf (by decide)
  · have hd : progress_reports diag = [] := by
      rw [hdiag]
      by_cases h1 : st = PSA_SUCCESS
      · by_cases h2 : info.state = PSA_IMAGE_CANDIDATE
        · simp [h1, h2, progress_reports]
        · simp [h1, h2, progress_reports]
      · simp [h1, progress_reports]
    rw [hwr, ← hprog, htr]
    simp only [progress_reports, List.filterMap_append, List.filterMap_cons] at hd ⊢
    simp [hd, hpos]

/-- C11: the code does not report the bytes written through the write just
made.  With a block size of at least one byte the function returns, and when
every write succeeded the progress line printed after write number `k + 1`
(index `k`) shows `k * B` bytes done out of the image length: the bytes written
before that write, strictly less than `min ((k + 1) * B) length`, the bytes
written through it. -/
theorem write_update_firmware_progress_lags {σ : Type} (svc : Service σ) (B : Nat)
    (hB : 1 ≤ B) (data : List Nat) (fuel : Nat) (hfuel : data.length < fuel) (s : σ) :
    ∃ r, write_update_firmware_with svc B data fuel s = some r ∧
      ((∀ w ∈ writes r.trace, w.status = PSA_SUCCESS) →
        ∀ (k : Nat), k < (writes r.trace).length →
          (progress_reports r.trace)[k]? = some (k * B, data.length) ∧
          k * B < min ((k + 1) * B) data.length) := by
  obtain ⟨r, hr⟩ := write_update_firmware_total svc B hB data fuel hfuel s
  refine ⟨r, hr, fun hok k hk => ?_⟩
  have hprog := write_update_firmware_progress svc B hB data fuel s r hr hok
  obtain ⟨hw, _⟩ := write_update_firmware_blocks svc B hB data fuel s r hr hok
  rw [hprog]
  generalize writes r.trace = ws at hw hk
  subst hw
  simp only [List.length_map, List.length_range] at hk
  have hn1 : (data.length + B - 1) / B * B ≤ data.length + B - 1 := Nat.div_mul_le_self _ _
  have hle : (k + 1) * B ≤ (data.length + B - 1) / B * B :=
    Nat.mul_le_mul_right B (by omega)
  have hp1 : (k + 1) * B = k * B + B := by ring
  refine ⟨?_, ?_⟩
  · rw [List.getElem?_append_left (by simpa using hk)]
    simp [List.getElem?_map, List.getElem?_range hk]
  · rw [hp1]
    omega

/-- A run of C11: five bytes in blocks of two, every write succeeding.  The
lines printed after the three writes show 0, 2 and 4 bytes done, where 2, 4
and 5 bytes had been written; on the program's own block size a two-byte
image is reported as 0 of 2 after its only write. -/
theorem write_update_firmware_progress_lags_witness :
    (∃ r, write_update_firmware_with (queryService 0 0 0 1) 2 (sampleImage 5) 6 () = some r ∧
      ((∀ w ∈ writes r.trace, w.status = PSA_SUCCESS) →
        (progress_reports r.trace)[0]? = some (0, 5) ∧
        (progress_reports r.trace)[2]? = some (4, 5))) ∧
    (write_update_firmware_with (queryService 0 0 0 1) 2 (sampleImage 5) 6 ()).map
      (fun r => (progress_reports r.trace, (writes r.trace).map (fun w => w.block_size)))
      = some ([(0, 5), (2, 5), (4, 5), (5, 5)], [2, 2, 1]) ∧
    (write_update_firmware (queryService 0 0 0 1) [7, 8] ()).map
      (fun r => (progress_reports r.trace, (writes r.trace).map (fun w => w.block_size)))
      = some ([(0, 2), (2, 2)], [2]) := by
  refine ⟨?_, by decide, by decide⟩
  obtain ⟨r, hr, h⟩ := write_update_firmware_progress_lags (queryService 0 0 0 1) 2
    (by decide) (sampleImage 5) 6 (by decide) ()
  refine ⟨r, hr, fun hok => ?_⟩
  have hlen : (writes r.trace).length = 3 := by
    have hrun : (write_update_firmware_with (queryService 0 0 0 1) 2 (sampleImage 5) 6 ()).map
        (fun r => (writes r.trace).length) = some 3 := by decide
    rw [hr] at hrun
    simpa using hrun
  have h0 := (h hok 0 (by omega)).1
  have h2 := (h hok 2 (by omega)).1
  have hs : (sampleImage 5).length = 5 := by decide
  rw [hs] at h0 h2
  exact ⟨by simpa using h0, by simpa using h2⟩

/-- C12: with a block size of at least one byte the function returns, and when
every write succeeded the last progress report it printed shows the image
length as bytes done and as bytes total. -/
theorem write_update_firmware_last_progress {σ : Type} (svc : Service σ) (B : Nat)
    (hB : 1 ≤ B) (data : List Nat) (fuel : Nat) (hfuel : data.length < fuel) (s : σ) :
    ∃ r, write_update_firmware_with svc B data fuel s = some r ∧
      ((∀ w ∈ writes r.trace, w.status = PSA_SUCCESS) →
        (progress_reports r.trace).getLast? = some (data.length, data.length)) := by
  obtain ⟨r, hr⟩ := write_update_firmware_total svc B hB data fuel hfuel s
  refine ⟨r, hr, fun hok => ?_⟩
  rw [write_update_firmware_progress svc B hB data fuel s r hr hok]
  simp

/-- Scenario A, last line: an image of 2000 bytes written by the program
with its block size of 752, every write succeeding, ends on 2000/2000. -/
theorem write_update_firmware_last_progress_witness :
    ∃ r, write_update_firmware (queryService 0 0 0 1) (sampleImage 2000) () = some r ∧
      (progress_reports r.trace).getLast? = some (2000, 2000) := by
  have hlen : (sampleImage 2000).length = 2000 := by simp [sampleImage]
  obtain ⟨r, hr, h⟩ := write_update_firmware_last_progress (queryService 0 0 0 1) 752
    (by decide) (sampleImage 2000) ((sampleImage 2000).length + 1) (by omega) ()
  refine ⟨r, hr, ?_⟩
  have hok := write_update_firmware_writes_ok (queryService 0 0 0 1) 752 (sampleImage 2000)
    _ () r (fun _ _ _ _ _ => rfl) hr
  have hlast := h hok
  rw [hlen] at hlast
  exact hlast

/-! ## Abort on an empty slot (C13) and install without retry (C16) -/

/-- C13 as stated fails: the staging slot is `Undefined` before and after (the
query answers `PSA_SUCCESS` with state `PSA_IMAGE_UNDEFINED` in both states),
the abort call answers `-1`, and `abort_update_firmware` returns `false`. -/
theorem abort_on_undefined_slot_can_fail :
    ((scriptedService 0 PSA_SUCCESS PSA_IMAGE_UNDEFINED 0 (-1)).psa_fwu_query
        image_id_ns_staging ()).1 = (PSA_SUCCESS, ⟨PSA_IMAGE_UNDEFINED, version0⟩) ∧
    ((scriptedService 0 PSA_SUCCESS PSA_IMAGE_UNDEFINED 0 (-1)).psa_fwu_query
        image_id_ns_staging
        (abort_update_firmware (scriptedService 0 PSA_SUCCESS PSA_IMAGE_UNDEFINED 0 (-1))
          ()).state).1 = (PSA_SUCCESS, ⟨PSA_IMAGE_UNDEFINED, version0⟩) ∧
    (abort_update_firmware (scriptedService 0 PSA_SUCCESS PSA_IMAGE_UNDEFINED 0 (-1)) ()).ret
      = false := by
  refine ⟨by decide, by decide, by decide⟩

/-- C13, amended: when the staging slot is `Undefined` before and after (the
query answers `PSA_SUCCESS` with state `PSA_IMAGE_UNDEFINED` in the state the
function starts in and in the state the abort call leaves) and the abort call
itself answers `PSA_SUCCESS`, `abort_update_firmware` returns `true`. -/
theorem abort_update_firmware_idempotent {σ : Type} (svc : Service σ) (s : σ)
    (_hbefore : (svc.psa_fwu_query image_id_ns_staging s).1.1 = PSA_SUCCESS ∧
      (svc.psa_fwu_query image_id_ns_staging s).1.2.state = PSA_IMAGE_UNDEFINED)
    (habort : (svc.psa_fwu_abort image_id_ns_staging s).1 = PSA_SUCCESS)
    (hafter : (svc.psa_fwu_query image_id_ns_staging
        (svc.psa_fwu_abort image_id_ns_staging s).2).1.1 = PSA_SUCCESS ∧
      (svc.psa_fwu_query image_id_ns_staging
        (svc.psa_fwu_abort image_id_ns_staging s).2).1.2.state = PSA_IMAGE_UNDEFINED) :
    (abort_update_firmware svc s).ret = true := by
  unfold abort_update_firmware
  simp [habort, hafter.1, hafter.2]

/-- A run of the amended C13: the slot service with an empty staging slot;
abort succeeds, and again on the state the first abort left. -/
theorem abort_update_firmware_idempotent_witness :
    (abort_update_firmware slotService PSA_IMAGE_UNDEFINED).ret = true ∧
    (abort_update_firmware slotService
      (abort_update_firmware slotService PSA_IMAGE_UNDEFINED).state).ret = true :=
  ⟨abort_update_firmware_idempotent slotService PSA_IMAGE_UNDEFINED ⟨rfl, rfl⟩ rfl ⟨rfl, rfl⟩,
   by decide⟩

/-- C16: `install_update_firmware` issues exactly one install call, on the
staging identity, and at most one query; when the install call answers
anything but `PSA_SUCCESS_REBOOT`, plain `PSA_SUCCESS` included, the install
call is the only call it issues. -/
theorem install_update_firmware_no_retry {σ : Type} (svc : Service σ) (s : σ) :
    installs (install_update_firmware svc s).trace =
      [.install image_id_ns_staging (svc.psa_fwu_install image_id_ns_staging s).1.1] ∧
    (queries (install_update_firmware svc s).trace).length ≤ 1 ∧
    ((svc.psa_fwu_install image_id_ns_staging s).1.1 ≠ PSA_SUCCESS_REBOOT →
      queries (install_update_firmware svc s).trace = [] ∧
      calls (install_update_firmware svc s).trace =
        [.install image_id_ns_staging (svc.psa_fwu_install image_id_ns_staging s).1.1]) ∧
    ((svc.psa_fwu_install image_id_ns_staging s).1.1 = PSA_SUCCESS →
      queries (install_update_firmware svc s).trace = []) := by
  have hne : PSA_SUCCESS ≠ PSA_SUCCESS_REBOOT := by decide
  unfold install_update_firmware
  by_cases h1 : (svc.psa_fwu_install image_id_ns_staging s).1.1 = PSA_SUCCESS_REBOOT
  · by_cases h2 : (svc.psa_fwu_query image_id_ns_staging
        (svc.psa_fwu_install image_id_ns_staging s).2).1.1 = PSA_SUCCESS
    · by_cases h3 : (svc.psa_fwu_query image_id_ns_staging
          (svc.psa_fwu_install image_id_ns_staging s).2).1.2.state = PSA_IMAGE_REBOOT_NEEDED
      · simp [h1, h2, h3, installs, queries, calls, hne.symm]
      · simp [h1, h2, h3, installs, queries, calls, hne.symm]
    · simp [h1, h2, installs, queries, calls, hne.symm]
  · simp [h1, installs, queries, calls]

/-- A run of C16: the install call answers plain `PSA_SUCCESS`; the install
call is the only call. -/
theorem install_update_firmware_no_retry_witness :
    queries (install_update_firmware (scriptedService 0 0 5 PSA_SUCCESS 0) ()).trace = [] ∧
    calls (install_update_firmware (scriptedService 0 0 5 PSA_SUCCESS 0) ()).trace =
      [.install image_id_ns_staging PSA_SUCCESS] :=
  (install_update_firmware_no_retry (scriptedService 0 0 5 PSA_SUCCESS 0) ()).2.2.1
    (by decide)

/-! ## Which primitive, on which identity (C15) -/

/-- Every call of the transfer loop addresses the staging identity. -/
theorem write_loop_targets {σ : Type} (svc : Service σ) (B : Nat) (data : List Nat) :
    ∀ (fuel pos dst : Nat) (s : σ) (l : Run σ (Bool × Nat)),
      write_loop svc B data fuel pos dst s = some l →
      ∀ e ∈ calls l.trace, target_id e = some image_id_ns_staging := by
  intro fuel
  induction fuel with
  | zero => intro pos dst s l h; simp [write_loop] at h
  | succ fuel ih =>
    intro pos dst s l h
    rcases write_loop_inv svc B data fuel pos dst s l h with
      ⟨_, rfl⟩ | ⟨_, todo, blk, st, s1, _, _, _, ⟨_, rfl⟩ | ⟨_, r1, hr1, rfl⟩⟩
    · simp [calls]
    · simp [calls, target_id]
    · have h1 := ih _ _ _ r1 hr1
      intro e he
      simp only [calls, List.filter_cons, List.mem_cons, if_true, if_false] at he h1
      rcases he with rfl | he
      · rfl
      · exact h1 e he

/-- A run of `write_update_firmware` issues no install and no abort, and every
call it issues addresses the staging identity. -/
theorem write_update_firmware_targets {σ : Type} (svc : Service σ) (B : Nat)
    (data : List Nat) (fuel : Nat) (s : σ) (r : Run σ Bool)
    (h : write_update_firmware_with svc B data fuel s = some r) :
    installs r.trace = [] ∧ aborts r.trace = [] ∧
    ∀ e ∈ calls r.trace, target_id e = some image_id_ns_staging := by
  obtain ⟨l, hl, hcase⟩ := write_update_firmware_inv svc B data fuel s r h
  obtain ⟨_, ha, hi, _⟩ := write_loop_shape svc B data fuel 0 0 s l hl
  have ht := write_loop_targets svc B data fuel 0 0 s l hl
  rcases hcase with ⟨_, rfl⟩ | ⟨_, st, info, s2, diag, _, _, _, htr, hcd, _, hdiag⟩
  · exact ⟨hi, ha, ht⟩
  · have hid : installs diag = [] ∧ aborts diag = [] := by
      rw [hdiag]
      by_cases h1 : st = PSA_SUCCESS
      · by_cases h2 : info.state = PSA_IMAGE_CANDIDATE
        · simp [h1, h2, installs, aborts]
        · simp [h1, h2, installs, aborts]
      · simp [h1, installs, aborts]
    rw [htr]
    refine ⟨?_, ?_, ?_⟩
    · simp only [installs, List.filter_append, List.filter_cons] at hi hid ⊢
      simp [hi, hid.1]
    · simp only [aborts, List.filter_append, List.filter_cons] at ha hid ⊢
      simp [ha, hid.2]
    · intro e he
      simp only [calls, List.filter_append, List.filter_cons, List.mem_append] at he ht hcd
      rcases he with he | he
      · exact ht e he
      · simp [hcd] at he
        rw [he]
        rfl

/-- The program's `write_update_firmware` returns: its block size is 752 and
its loop is given one more unit of fuel than the image has bytes. -/
theorem write_update_firmware_returns {σ : Type} (svc : Service σ) (data : List Nat) (s : σ) :
    ∃ r, write_update_firmware svc data s = some r :=
  write_update_firmware_total svc MAX_BLOCK_SIZE (by decide) data (data.length + 1)
    (by omega) s

/-- Every call of `install_update_firmware` addresses the staging identity, and
none is a write or an abort. -/
theorem install_update_firmware_targets {σ : Type} (svc : Service σ) (s : σ) :
    writes (install_update_firmware svc s).trace = [] ∧
    aborts (install_update_firmware svc s).trace = [] ∧
    ∀ e ∈ calls (install_update_firmware svc s).trace,
      target_id e = some image_id_ns_staging := by
  unfold install_update_firmware
  by_cases h1 : (svc.psa_fwu_install image_id_ns_staging s).1.1 = PSA_SUCCESS_REBOOT
  · by_cases h2 : (svc.psa_fwu_query image_id_ns_staging
        (svc.psa_fwu_install image_id_ns_staging s).2).1.1 = PSA_SUCCESS
    · by_cases h3 : (svc.psa_fwu_query image_id_ns_staging
          (svc.psa_fwu_install image_id_ns_staging s).2).1.2.state = PSA_IMAGE_REBOOT_NEEDED
      · simp [h1, h2, h3, writes, aborts, calls, target_id]
      · simp [h1, h2, h3, writes, aborts, calls, target_id]
    · simp [h1, h2, writes, aborts, calls, target_id]
  · simp [h1, writes, aborts, calls, target_id]

/-- Every call of `abort_update_firmware` addresses the staging identity, and
none is a write or an install. -/
theorem abort_update_firmware_targets {σ : Type} (svc : Service σ) (s : σ) :
    writes (abort_update_firmware svc s).trace = [] ∧
    installs (abort_update_firmware svc s).trace = [] ∧
    ∀ e ∈ calls (abort_update_firmware svc s).trace,
      target_id e = some image_id_ns_staging := by
  unfold abort_update_firmware
  by_cases h1 : (svc.psa_fwu_abort image_id_ns_staging s).1 = PSA_SUCCESS
  · by_cases h2 : (svc.psa_fwu_query image_id_ns_staging
        (svc.psa_fwu_abort image_id_ns_staging s).2).1.1 = PSA_SUCCESS
    · by_cases h3 : (svc.psa_fwu_query image_id_ns_staging
          (svc.psa_fwu_abort image_id_ns_staging s).2).1.2.state = PSA_IMAGE_UNDEFINED
      · simp [h1, h2, h3, writes, installs, calls, target_id]
      · simp [h1, h2, h3, writes, installs, calls, target_id]
    · simp [h1, h2, writes, installs, calls, target_id]
  · simp [h1, writes, installs, calls, target_id]

/-! ## The stress test (C17) -/

/-- Unfolding of one round of the stress loop: the write fails and the loop
stops, or the abort fails and the loop stops, or both succeed and the loop
goes on with the next round. -/
theorem stress_loop_inv {σ : Type} (svc : Service σ) (data : List Nat) (rounds todo i : Nat)
    (s : σ) (r : Run σ Bool)
    (h : stress_loop svc data rounds (todo + 1) i s = some r) :
    ∃ w, write_update_firmware svc data s = some w ∧
      ((w.ret = false ∧
          r = ⟨false, w.state,
            .printf "Round (%d/%d)...\r\n" [.nat (i + 1), .nat rounds] :: w.trace
              ++ [.printf "write_update_firmware() failed\r\n" []]⟩) ∨
       (w.ret = true ∧ (abort_update_firmware svc w.state).ret = false ∧
          r = ⟨false, (abort_update_firmware svc w.state).state,
            .printf "Round (%d/%d)...\r\n" [.nat (i + 1), .nat rounds] :: w.trace
              ++ (abort_update_firmware svc w.state).trace
              ++ [.printf "abort_update_firmware() failed\r\n" []]⟩) ∨
       (w.ret = true ∧ (abort_update_firmware svc w.state).ret = true ∧ ∃ r1,
          stress_loop svc data rounds todo (i + 1) (abort_update_firmware svc w.state).state
            = some r1 ∧
          r = ⟨r1.ret, r1.state,
            .printf "Round (%d/%d)...\r\n" [.nat (i + 1), .nat rounds] :: w.trace
              ++ (abort_update_firmware svc w.state).trace
              ++ .printf "Round (%d/%d)...OK\r\n" [.nat (i + 1), .nat rounds] :: r1.trace⟩)) := by
  rw [stress_loop] at h
  cases hw : write_update_firmware svc data s with
  | none => rw [hw] at h; simp at h
  | some w =>
    rw [hw] at h
    refine ⟨w, rfl, ?_⟩
    simp only [] at h
    by_cases hwr : w.ret = false
    · left
      rw [if_pos hwr] at h
      simp only [Option.some.injEq] at h
      exact ⟨hwr, h.symm⟩
    · right
      have hwt : w.ret = true := by simpa using hwr
      rw [if_neg hwr] at h
      by_cases har : (abort_update_firmware svc w.state).ret = false
      · left
        rw [if_pos har] at h
        simp only [Option.some.injEq] at h
        exact ⟨hwt, har, h.symm⟩
      · right
        have hat : (abort_update_firmware svc w.state).ret = true := by simpa using har
        rw [if_neg har] at h
        cases hrec : stress_loop svc data rounds todo (i + 1)
            (abort_update_firmware svc w.state).state with
        | none => rw [hrec] at h; simp at h
        | some r1 =>
          rw [hrec] at h
          simp only [Option.some.injEq] at h
          exact ⟨hwt, hat, r1, rfl, h.symm⟩

/-- The stress loop returns, whatever the number of rounds left. -/
theorem stress_loop_returns {σ : Type} (svc : Service σ) (data : List Nat) (rounds : Nat) :
    ∀ (todo i : Nat) (s : σ), ∃ r, stress_loop svc data rounds todo i s = some r := by
  intro todo
  induction todo with
  | zero => intro i s; exact ⟨_, rfl⟩
  | succ todo ih =>
    intro i s
    obtain ⟨w, hw⟩ := write_update_firmware_returns svc data s
    rw [stress_loop, hw]
    simp only []
    split
    · exact ⟨_, rfl⟩
    · split
      · exact ⟨_, rfl⟩
      · obtain ⟨r1, hr1⟩ := ih (i + 1) (abort_update_firmware svc w.state).state
        rw [hr1]
        exact ⟨_, rfl⟩

/-- The stress loop does what the specification words: its calls, in order,
its final service state and its verdict are those of running the writes and
aborts of the rounds left, in order, up to the first that reports failure. -/
theorem stress_loop_refines {σ : Type} (svc : Service σ) (data : List Nat) (rounds : Nat) :
    ∀ (todo i : Nat) (s : σ) (r : Run σ Bool),
      stress_loop svc data rounds todo i s = some r →
      ∃ q, spec_run_until_failure (spec_stress_ops svc data todo) s = some q ∧
        q.ret = r.ret ∧ q.state = r.state ∧ calls r.trace = calls q.trace := by
  intro todo
  induction todo with
  | zero =>
    intro i s r h
    simp only [stress_loop, Option.some.injEq] at h
    subst h
    exact ⟨⟨true, s, []⟩, rfl, rfl, rfl, rfl⟩
  | succ todo ih =>
    intro i s r h
    obtain ⟨w, hw, hcase⟩ := stress_loop_inv svc data rounds todo i s r h
    rcases hcase with ⟨hwr, rfl⟩ | ⟨hwr, har, rfl⟩ | ⟨hwr, har, r1, hr1, rfl⟩
    · refine ⟨⟨false, w.state, w.trace⟩, ?_, rfl, rfl, ?_⟩
      · simp [spec_stress_ops, spec_run_until_failure, hw, hwr]
      · simp [calls, List.filter_append]
    · refine ⟨⟨false, (abort_update_firmware svc w.state).state,
        w.trace ++ (abort_update_firmware svc w.state).trace⟩, ?_, rfl, rfl, ?_⟩
      · simp [spec_stress_ops, spec_run_until_failure, hw, hwr, har]
      · simp [calls, List.filter_append]
    · obtain ⟨q1, hq1, hret, hst, hcalls⟩ := ih (i + 1) _ r1 hr1
      refine ⟨⟨q1.ret, q1.state,
        w.trace ++ ((abort_update_firmware svc w.state).trace ++ q1.trace)⟩, ?_, hret, hst, ?_⟩
      · simp [spec_stress_ops, spec_run_until_failure, hw, hwr, har, hq1]
      · simp only [calls, List.filter_append, List.filter_cons] at hcalls ⊢
        simp [hcalls]

/-- Every call of the stress loop addresses the staging identity (so the loop
requests no reboot), and none is an install. -/
theorem stress_loop_targets {σ : Type} (svc : Service σ) (data : List Nat) (rounds : Nat) :
    ∀ (todo i : Nat) (s : σ) (r : Run σ Bool),
      stress_loop svc data rounds todo i s = some r →
      installs r.trace = [] ∧
      ∀ e ∈ calls r.trace, target_id e = some image_id_ns_staging := by
  intro todo
  induction todo with
  | zero =>
    intro i s r h
    simp only [stress_loop, Option.some.injEq] at h
    subst h
    simp [installs, calls]
  | succ todo ih =>
    intro i s r h
    obtain ⟨w, hw, hcase⟩ := stress_loop_inv svc data rounds todo i s r h
    obtain ⟨hwi, _, hwt⟩ := write_update_firmware_targets svc MAX_BLOCK_SIZE data
      (data.length + 1) s w hw
    obtain ⟨_, hai, hat⟩ := abort_update_firmware_targets svc w.state
    simp only [installs, calls] at hwi hai hwt hat
    rcases hcase with ⟨_, rfl⟩ | ⟨_, _, rfl⟩ | ⟨_, _, r1, hr1, rfl⟩
    · refine ⟨by simp [installs, List.filter_append, hwi], fun e he => ?_⟩
      simp only [calls, List.cons_append, List.filter_cons, List.filter_append,
        List.mem_append] at he
      simp at he
      exact hwt e (by simpa using he)
    · refine ⟨by simp [installs, List.filter_append, hwi, hai], fun e he => ?_⟩
      simp only [calls, List.cons_append, List.filter_cons, List.filter_append,
        List.mem_append] at he
      simp at he
      rcases he with he | he
      · exact hwt e (by simpa using he)
      · exact hat e (by simpa using he)
    · obtain ⟨hri, hrt⟩ := ih (i + 1) _ r1 hr1
      simp only [installs, calls] at hri hrt
      refine ⟨by simp [installs, List.filter_append, hwi, hai, hri], fun e he => ?_⟩
      simp only [calls, List.cons_append, List.filter_cons, List.filter_append,
        List.mem_append] at he
      simp at he
      rcases he with he | he | he
      · exact hwt e (by simpa using he)
      · exact hat e (by simpa using he)
      · exact hrt e (by simpa using he)


/-- Unfolding of `stress_test`: the loop, then the reboot when the loop ran
through all its rounds. -/
theorem stress_test_inv {σ : Type} (svc : Service σ) (data : List Nat) (rounds : Nat) (s : σ) :
    ∃ l, stress_loop svc data rounds rounds 0 s = some l ∧
      ((l.ret = false ∧ stress_test svc data rounds s = some ⟨(), l.state, l.trace⟩) ∨
       (l.ret = true ∧ stress_test svc data rounds s =
          some ⟨(), svc.psa_fwu_request_reboot l.state,
            l.trace ++ [.printf "\r\nSystem is going to reboot after 3s...\n\n" [],
              .sleep_for 3, .request_reboot]⟩)) := by
  obtain ⟨l, hl⟩ := stress_loop_returns svc data rounds rounds 0 s
  refine ⟨l, hl, ?_⟩
  unfold stress_test
  rw [hl]
  by_cases hr : l.ret = false
  · left
    exact ⟨hr, by simp [hr]⟩
  · right
    have ht : l.ret = true := by simpa using hr
    exact ⟨ht, by simp [ht, reboot]⟩

/-- C17: `stress_test` returns, and it does what running the writes and aborts
of `rounds` rounds in order, up to the first that reports failure, does: the
same calls in the same order and the same service state, followed by the
three-second sleep and the reboot request exactly when every operation
reported success.  With no round it only prints the notice, sleeps and
requests the reboot. -/
theorem stress_test_refines_spec {σ : Type} (svc : Service σ) (data : List Nat)
    (rounds : Nat) (s : σ) :
    ∃ r q, stress_test svc data rounds s = some r ∧
      spec_run_until_failure (spec_stress_ops svc data rounds) s = some q ∧
      (q.ret = false → calls r.trace = calls q.trace ∧ r.state = q.state) ∧
      (q.ret = true →
        calls r.trace = calls q.trace ++ [.sleep_for 3, .request_reboot] ∧
        r.state = svc.psa_fwu_request_reboot q.state) ∧
      (Event.request_reboot ∈ r.trace ↔ q.ret = true) ∧
      (rounds = 0 →
        r.trace = [.printf "\r\nSystem is going to reboot after 3s...\n\n" [],
          .sleep_for 3, .request_reboot]) := by
  obtain ⟨l, hl, hcase⟩ := stress_test_inv svc data rounds s
  obtain ⟨q, hq, hret, hst, hcalls⟩ := stress_loop_refines svc data rounds rounds 0 s l hl
  obtain ⟨_, htargets⟩ := stress_loop_targets svc data rounds rounds 0 s l hl
  have hno : Event.request_reboot ∉ l.trace := by
    intro hmem
    have hc : Event.request_reboot ∈ calls l.trace := by
      simp only [calls, List.mem_filter]
      exact ⟨hmem, trivial⟩
    have := htargets _ hc
    simp [target_id] at this
  rcases hcase with ⟨hf, hrun⟩ | ⟨ht, hrun⟩
  · refine ⟨_, q, hrun, hq, ?_, ?_, ?_, ?_⟩
    · intro _
      exact ⟨hcalls, hst.symm⟩
    · intro hqt
      rw [hret, hf] at hqt
      exact absurd hqt (by decide)
    · rw [hret, hf]
      simp [hno]
    · intro h0
      subst h0
      simp only [stress_loop, Option.some.injEq] at hl
      subst hl
      simp at hf
  · refine ⟨_, q, hrun, hq, ?_, ?_, ?_, ?_⟩
    · intro hqf
      rw [hret, ht] at hqf
      exact absurd hqf (by decide)
    · intro _
      refine ⟨?_, by rw [hst]⟩
      simp only [calls, List.filter_append] at hcalls ⊢
      simp [hcalls]
    · rw [hret, ht]
      simp
    · intro h0
      subst h0
      simp only [stress_loop, Option.some.injEq] at hl
      subst hl
      simp

/-- Two runs of C17, two rounds each.  On the slot service every operation
succeeds: two writes and two aborts, each followed by its query, then the
sleep and the reboot request.  On a service whose staging slot stays
`Candidate` the first abort reports failure: one write, one abort, no second
round and no reboot request. -/
theorem stress_test_refines_spec_witness :
    (∃ r q, stress_test slotService [7, 8] 2 PSA_IMAGE_UNDEFINED = some r ∧
      spec_run_until_failure (spec_stress_ops slotService [7, 8] 2) PSA_IMAGE_UNDEFINED
        = some q ∧
      (Event.request_reboot ∈ r.trace ↔ q.ret = true)) ∧
    (stress_test slotService [7, 8] 2 PSA_IMAGE_UNDEFINED).map
      (fun r => (calls r.trace).map (fun e =>
        match e with
        | .write _ _ _ _ _ => "write"
        | .query _ _ _ => "query"
        | .abort _ _ => "abort"
        | .install _ _ => "install"
        | .sleep_for _ => "sleep"
        | .request_reboot => "reboot"
        | .printf _ _ => "printf"))
      = some ["write", "query", "abort", "query", "write", "query", "abort", "query",
          "sleep", "reboot"] ∧
    (stress_test (scriptedService 9 0 1 0 0) [7, 8] 2 ()).map
      (fun r => (calls r.trace).map (fun e =>
        match e with
        | .write _ _ _ _ _ => "write"
        | .query _ _ _ => "query"
        | .abort _ _ => "abort"
        | .install _ _ => "install"
        | .sleep_for _ => "sleep"
        | .request_reboot => "reboot"
        | .printf _ _ => "printf"))
      = some ["write", "query", "abort", "query"] := by
  refine ⟨?_, by decide, by decide⟩
  obtain ⟨r, q, hr, hq, _, _, hiff, _⟩ :=
    stress_test_refines_spec slotService [7, 8] 2 PSA_IMAGE_UNDEFINED
  exact ⟨r, q, hr, hq, hiff⟩


/-- C15: every primitive call the program issues is the primitive of the
operation being run, or a query, and addresses the staging identity:
`write_update_firmware` issues no install and no abort, `install_update_firmware`
no write and no abort, `abort_update_firmware` no write and no install, and all
their calls, queries included, are on the staging identity; `stress_test`
adds only the sleep and the reboot request.  `show_image_info` issues queries
only, and it is the only function that addresses the active identity, which
is a different identity. -/
theorem primitive_calls_address_staging {σ : Type} (svc : Service σ) (s : σ) (B : Nat)
    (hB : 1 ≤ B) (data : List Nat) (fuel : Nat) (hfuel : data.length < fuel) (rounds : Nat) :
    (∃ r, write_update_firmware_with svc B data fuel s = some r ∧
      installs r.trace = [] ∧ aborts r.trace = [] ∧
      ∀ e ∈ calls r.trace, target_id e = some image_id_ns_staging) ∧
    (writes (install_update_firmware svc s).trace = [] ∧
      aborts (install_update_firmware svc s).trace = [] ∧
      ∀ e ∈ calls (install_update_firmware svc s).trace,
        target_id e = some image_id_ns_staging) ∧
    (writes (abort_update_firmware svc s).trace = [] ∧
      installs (abort_update_firmware svc s).trace = [] ∧
      ∀ e ∈ calls (abort_update_firmware svc s).trace,
        target_id e = some image_id_ns_staging) ∧
    (∃ r, stress_test svc data rounds s = some r ∧ installs r.trace = [] ∧
      ∀ e ∈ calls r.trace, target_id e = some image_id_ns_staging ∨
        e = .sleep_for 3 ∨ e = .request_reboot) ∧
    (writes (show_image_info svc s).trace = [] ∧
      installs (show_image_info svc s).trace = [] ∧
      aborts (show_image_info svc s).trace = [] ∧
      (calls (show_image_info svc s).trace).map target_id =
        [some image_id_ns_active, some image_id_ns_staging]) ∧
    image_id_ns_active ≠ image_id_ns_staging := by
  refine ⟨?_, install_update_firmware_targets svc s, abort_update_firmware_targets svc s,
    ?_, ?_, by decide⟩
  · obtain ⟨r, hr⟩ := write_update_firmware_total svc B hB data fuel hfuel s
    exact ⟨r, hr, write_update_firmware_targets svc B data fuel s r hr⟩
  · obtain ⟨l, hl, hcase⟩ := stress_test_inv svc data rounds s
    obtain ⟨hi, ht⟩ := stress_loop_targets svc data rounds rounds 0 s l hl
    rcases hcase with ⟨_, hrun⟩ | ⟨_, hrun⟩
    · exact ⟨_, hrun, hi, fun e he => Or.inl (ht e he)⟩
    · refine ⟨_, hrun, ?_, fun e he => ?_⟩
      · simp only [installs, List.filter_append] at hi ⊢
        simp [hi]
      · simp only [calls, List.filter_append, List.mem_append] at he ht
        rcases he with he | he
        · exact Or.inl (ht e he)
        · simp at he
          exact Or.inr he
  · unfold show_image_info
    by_cases h1 : (svc.psa_fwu_query image_id_ns_active s).1.1 = PSA_SUCCESS <;>
      by_cases h2 : (svc.psa_fwu_query image_id_ns_staging
        (svc.psa_fwu_query image_id_ns_active s).2).1.1 = PSA_SUCCESS <;>
      simp [h1, h2, writes, installs, aborts, calls, target_id]

/-- A run of C15 on the slot service: a two-byte image written, installed and
aborted; each function issues its own primitive and one query, all on the
staging identity. -/
theorem primitive_calls_address_staging_witness :
    (∃ r, write_update_firmware_with slotService 2 [7, 8] 3 PSA_IMAGE_UNDEFINED = some r ∧
      installs r.trace = [] ∧ aborts r.trace = [] ∧
      ∀ e ∈ calls r.trace, target_id e = some image_id_ns_staging) ∧
    (calls (install_update_firmware slotService PSA_IMAGE_CANDIDATE).trace).map target_id =
      [some image_id_ns_staging, some image_id_ns_staging] ∧
    (calls (abort_update_firmware slotService PSA_IMAGE_CANDIDATE).trace).map target_id =
      [some image_id_ns_staging, some image_id_ns_staging] :=
  ⟨(primitive_calls_address_staging slotService PSA_IMAGE_UNDEFINED 2 (by decide) [7, 8] 3
      (by decide) 1).1,
    by decide, by decide⟩

/-! ## A block size of zero (C14) -/

/-- With a block size of zero and bytes left to send, the loop can only leave
through a failed write: when it returns it returns `false`, it has issued at
least one write, and each write it issued is a zero-length write at the
destination offset the loop started with. -/
theorem write_loop_zero_block {σ : Type} (svc : Service σ) (data : List Nat) :
    ∀ (fuel pos dst : Nat) (s : σ) (l : Run σ (Bool × Nat)),
      pos < data.length → write_loop svc 0 data fuel pos dst s = some l →
      l.ret.1 = false ∧ writes l.trace ≠ [] ∧
      ∀ w ∈ writes l.trace, w.block_offset = dst ∧ w.block = [] ∧ w.block_size = 0 := by
  intro fuel
  induction fuel with
  | zero => intro pos dst s l _ h; simp [write_loop] at h
  | succ fuel ih =>
    intro pos dst s l hpos h
    rcases write_loop_inv svc 0 data fuel pos dst s l h with
      ⟨hp, _⟩ | ⟨_, todo, blk, st, s1, htodo, hblk, _, ⟨_, rfl⟩ | ⟨_, r1, hr1, rfl⟩⟩
    · exact absurd hpos hp
    · have h0 : todo = 0 := by omega
      subst h0
      simp [writes, hblk]
    · have h0 : todo = 0 := by omega
      subst h0
      obtain ⟨hret, _, hall⟩ := ih pos dst s1 r1 hpos hr1
      refine ⟨hret, by simp [writes], fun w hw => ?_⟩
      simp only [writes, List.filterMap_cons, List.mem_cons] at hw hall
      rcases hw with rfl | hw
      · simp [hblk]
      · exact hall w hw

/-- C14 as stated fails: with a block size of zero nothing is rejected.  An
empty image goes straight to the verifying query and is reported as a success;
a one-byte image gets a zero-length write issued at offset 0. -/
theorem zero_block_size_not_rejected :
    (write_update_firmware_with (scriptedService 9 0 1 0 0) 0 [] 1 ()).map
      (fun r => (r.ret, writes r.trace)) = some (true, []) ∧
    (write_update_firmware_with (scriptedService 0 0 1 0 0) 0 [7] 1 ()).map
      (fun r => (r.ret, writes r.trace))
      = some (false, [⟨image_id_ns_staging, 0, [], 0, -1⟩]) := by
  refine ⟨by decide, by decide⟩

/-- C14, amended: the program's block size is the constant 752, and no check
on the block size is made.  With the block size as a parameter set to zero,
the transfer of an empty image issues no write and returns what the verifying
query decides; the transfer of a non-empty image returns only after a write
has failed, with `false`, every write it issued being a zero-length write at
offset 0, and it never returns when the service lets every write succeed. -/
theorem write_update_firmware_zero_block_size {σ : Type} (svc : Service σ)
    (data : List Nat) (fuel : Nat) (s : σ) :
    1 ≤ MAX_BLOCK_SIZE ∧
    (data = [] → 1 ≤ fuel →
      ∃ r, write_update_firmware_with svc 0 data fuel s = some r ∧ writes r.trace = [] ∧
        (r.ret = true ↔ (svc.psa_fwu_query image_id_ns_staging s).1.1 = PSA_SUCCESS ∧
          (svc.psa_fwu_query image_id_ns_staging s).1.2.state = PSA_IMAGE_CANDIDATE)) ∧
    (data ≠ [] → ∀ r, write_update_firmware_with svc 0 data fuel s = some r →
      r.ret = false ∧ writes r.trace ≠ [] ∧
      (∀ w ∈ writes r.trace, w.block_offset = 0 ∧ w.block = [] ∧ w.block_size = 0) ∧
      ∃ w ∈ writes r.trace, w.status ≠ PSA_SUCCESS) ∧
    (data ≠ [] → (∀ id off blk n t, (svc.psa_fwu_write id off blk n t).1 = PSA_SUCCESS) →
      write_update_firmware_with svc 0 data fuel s = none) := by
  have hpos : data ≠ [] → 0 < data.length := fun h => List.length_pos.mpr h
  have hstop : data ≠ [] → ∀ r, write_update_firmware_with svc 0 data fuel s = some r →
      r.ret = false ∧ writes r.trace ≠ [] ∧
      (∀ w ∈ writes r.trace, w.block_offset = 0 ∧ w.block = [] ∧ w.block_size = 0) ∧
      ∃ w ∈ writes r.trace, w.status ≠ PSA_SUCCESS := by
    intro hne r hr
    obtain ⟨l, hl, hcase⟩ := write_update_firmware_inv svc 0 data fuel s r hr
    obtain ⟨hret, hwne, hall⟩ := write_loop_zero_block svc data fuel 0 0 s l (hpos hne) hl
    have hwr := write_update_firmware_writes svc 0 data fuel s r l hr hl
    obtain ⟨ws, w, hws, _, hw, _⟩ := (write_loop_shape svc 0 data fuel 0 0 s l hl).2.2.2.2.2 hret
    rcases hcase with ⟨_, rfl⟩ | ⟨ht, _⟩
    · exact ⟨rfl, hwne, hall, w, by rw [hws]; simp, hw⟩
    · rw [hret] at ht
      exact absurd ht (by decide)
  refine ⟨by decide, ?_, hstop, ?_⟩
  · intro hnil hfuel
    subst hnil
    obtain ⟨k, rfl⟩ : ∃ k, fuel = k + 1 := ⟨fuel - 1, by omega⟩
    unfold write_update_firmware_with
    by_cases h1 : (svc.psa_fwu_query image_id_ns_staging s).1.1 = PSA_SUCCESS
    · by_cases h2 : (svc.psa_fwu_query image_id_ns_staging s).1.2.state = PSA_IMAGE_CANDIDATE
      · simp [write_loop, h1, h2, writes]
      · simp [write_loop, h1, h2, writes]
    · simp [write_loop, h1, writes]
  · intro hne hsvc
    cases hrun : write_update_firmware_with svc 0 data fuel s with
    | none => rfl
    | some r =>
      obtain ⟨_, _, _, w, hw, hst⟩ := hstop hne r hrun
      exact absurd (write_update_firmware_writes_ok svc 0 data fuel s r hsvc hrun w hw) hst

/-- Runs of the amended C14 on a one-byte image with block size zero: the
first write fails and the function returns `false` after that zero-length
write; on a service whose writes succeed fifty evaluations of the loop
condition are not enough, nor is any other number. -/
theorem write_update_firmware_zero_block_size_witness :
    (write_update_firmware_with (scriptedService 0 0 1 0 0) 0 [7] 1 ()).map
      (fun r => r.ret) = some false ∧
    write_update_firmware_with (queryService 0 0 0 1) 0 [7] 50 () = none ∧
    ∃ r, write_update_firmware_with (queryService 0 0 0 1) 0 [] 1 () = some r ∧
      writes r.trace = [] :=
  ⟨by decide,
   (write_update_firmware_zero_block_size (queryService 0 0 0 1) [7] 50 ()).2.2.2
      (by decide) (fun _ _ _ _ _ => rfl),
   ((write_update_firmware_zero_block_size (queryService 0 0 0 1) [] 1 ()).2.1 rfl
      (by decide)).imp fun _ h => ⟨h.1, h.2.1⟩⟩

end PsaFwu
